import Mathlib

/-!
# Verification of the Energy-Aware Sensor Node Simulator

A shallow embedding of the simulator (`sensor_sim/simulator.py`,
`sensor_sim/policies.py`, `sensor_sim/models.py`) in Lean 4.

Modelling conventions:
* Python `float` arithmetic is modelled by exact rational (`ℚ`) arithmetic;
  Python `int` by `ℤ`.
* `math.sin` and `math.pi` are transcendental, so they are taken as
  parameters (`sinF : ℚ → ℚ`, `piQ : ℚ`) of every definition that uses them;
  all structural statements are proved for every choice of these parameters.
* `random.seed(cfg.seed)` followed by successive `random.gauss(0.0, σ)` draws
  is modelled by a parameter `rng : ℤ → ℕ → ℚ` giving, for each seed, the
  stream of standard normal draws; `random.gauss(0.0, σ)` returns
  `0.0 + z * σ` where `z` is the next draw, so the k-th measurement noise is
  `cfg.noise_std * rng cfg.seed k`.
* Python `int(x)` on a float truncates toward zero (`pyTrunc`); Python
  `round(x)` rounds half to even (`pyRound`).
* A Python run that raises is modelled by `Option`: `simulate` returns
  `none` exactly when the source raises, which happens in exactly two
  places — the `ZeroDivisionError` at the `steps` computation when
  `cfg.dt_s == 0`, and the `ZeroDivisionError` inside `EnergyModel.e_tx`
  when `bitrate_bps == 0` and the run reaches a transmission (see the doc
  comments of `simulate` and `EnergyModel.e_tx`).
-/

namespace SensorSim

/-- Python `int(x)` for a real `x`: truncation toward zero. -/
def pyTrunc (q : ℚ) : ℤ := if 0 ≤ q then ⌊q⌋ else -⌊-q⌋

/-- Python `round(x)` (no digits): round to nearest, ties to even. -/
def pyRound (q : ℚ) : ℤ :=
  if q - ⌊q⌋ < 1/2 then ⌊q⌋
  else if (1/2 : ℚ) < q - ⌊q⌋ then ⌊q⌋ + 1
  else if ⌊q⌋ % 2 = 0 then ⌊q⌋ else ⌊q⌋ + 1

/-- `PolicyOutput` from `sensor_sim/policies.py`: the per-step decision. -/
structure PolicyOutput where
  awake : Bool
  take_sample : Bool
  transmit : Bool
deriving DecidableEq

/-- The `BasePolicy` interface from `sensor_sim/policies.py`.  A policy owns
internal state of type `σ`; `reset` is the state installed by
`BasePolicy.reset()` at the start of a run, and `step st t lm ltx` returns
the `PolicyOutput` together with the updated internal state (Python mutates
`self`; here the state is passed explicitly). -/
structure Policy (σ : Type) where
  reset : σ
  step : σ → ℤ → Option ℚ → Option ℤ → PolicyOutput × σ

/-- `EnergyModel` from `sensor_sim/models.py` (configuration fields). -/
structure EnergyModel where
  power_sleep_mw : ℚ
  power_idle_awake_mw : ℚ
  power_cpu_mw : ℚ
  power_sense_mw : ℚ
  power_tx_mw : ℚ
  t_sense_s : ℚ
  t_cpu_s : ℚ
  bitrate_bps : ℚ
  tx_overhead_s : ℚ
deriving DecidableEq

/-- `EnergyModel.e_sleep`. -/
def EnergyModel.e_sleep (E : EnergyModel) (dt : ℚ) : ℚ := E.power_sleep_mw * dt

/-- `EnergyModel.e_idle_awake`. -/
def EnergyModel.e_idle_awake (E : EnergyModel) (dt : ℚ) : ℚ := E.power_idle_awake_mw * dt

/-- `EnergyModel.e_sense`. -/
def EnergyModel.e_sense (E : EnergyModel) : ℚ := E.power_sense_mw * E.t_sense_s

/-- `EnergyModel.e_cpu`. -/
def EnergyModel.e_cpu (E : EnergyModel) : ℚ := E.power_cpu_mw * E.t_cpu_s

/-- `EnergyModel.e_tx`: `bits = payload_bytes * 8`,
`t_tx = tx_overhead_s + bits / bitrate_bps`, energy `= power_tx_mw * t_tx`.
When `bitrate_bps == 0` the Python division raises `ZeroDivisionError`;
that raise is surfaced by `simulate` (which returns `none` whenever
`bitrate_bps = 0` and the run reaches a transmission, i.e. whenever this
function would be called with a zero denominator), so the value of the
total ℚ division below at a zero denominator is never observable in a
returned `SimResult`. -/
def EnergyModel.e_tx (E : EnergyModel) (payload_bytes : ℤ) : ℚ :=
  E.power_tx_mw * (E.tx_overhead_s + (payload_bytes * 8 : ℤ) / E.bitrate_bps)

/-- Non-negativity of every `EnergyModel` configuration field (the spec's
invariant on the energy model). -/
def EnergyModel.Nonneg (E : EnergyModel) : Prop :=
  0 ≤ E.power_sleep_mw ∧ 0 ≤ E.power_idle_awake_mw ∧ 0 ≤ E.power_cpu_mw ∧
  0 ≤ E.power_sense_mw ∧ 0 ≤ E.power_tx_mw ∧ 0 ≤ E.t_sense_s ∧
  0 ≤ E.t_cpu_s ∧ 0 ≤ E.bitrate_bps ∧ 0 ≤ E.tx_overhead_s

instance (E : EnergyModel) : Decidable E.Nonneg := by
  unfold EnergyModel.Nonneg; infer_instance

/-- `NodeConfig` from `sensor_sim/models.py`. -/
structure NodeConfig where
  duration_s : ℤ
  dt_s : ℚ
  payload_bytes : ℤ
  seed : ℤ
  signal_base : ℚ
  signal_amp : ℚ
  signal_period_s : ℚ
  noise_std : ℚ
  change_threshold : ℚ
  max_silence_s : ℤ
deriving DecidableEq

/-- `SimResult` from `sensor_sim/models.py`.  The Python
`energy_breakdown_mj` dict (insertion-ordered) is modelled as an association
list in insertion order. -/
structure SimResult where
  t : List ℤ
  truth : List ℚ
  measured : List (Option ℚ)
  sent : List Bool
  reconstructed : List ℚ
  energy_total_mj : ℚ
  energy_breakdown_mj : List (String × ℚ)
  samples_taken : ℕ
  packets_sent : ℕ
  mae : ℚ
deriving DecidableEq

instance : Inhabited SimResult :=
  ⟨⟨[], [], [], [], [], 0, [], 0, 0, 0⟩⟩

/-- `ground_truth` from `sensor_sim/simulator.py`:
`w = 2π / max(1.0, signal_period_s)`;
result `= signal_base + signal_amp * sin(w*t) + 0.25 * sin(w * 0.33 * t)`. -/
def ground_truth (sinF : ℚ → ℚ) (piQ : ℚ) (t_s : ℤ) (cfg : NodeConfig) : ℚ :=
  cfg.signal_base +
    cfg.signal_amp * sinF (2 * piQ / max 1 cfg.signal_period_s * t_s) +
    (1/4) * sinF (2 * piQ / max 1 cfg.signal_period_s * (33/100) * t_s)

/-- The signal-generator formula as worded by the spec (section 4.2 and
claim C8): the frequency divisor is `signal_period_s` itself, with no
clamping.  This definition follows the spec's words and exists only to be
compared against `ground_truth`, which is translated from the source. -/
def ground_truth_spec (sinF : ℚ → ℚ) (piQ : ℚ) (t_s : ℤ) (cfg : NodeConfig) : ℚ :=
  cfg.signal_base +
    cfg.signal_amp * sinF (2 * piQ * t_s / cfg.signal_period_s) +
    (1/4) * sinF (2 * piQ * (33/100) * t_s / cfg.signal_period_s)

/-! ## Policies (`sensor_sim/policies.py`) -/

/-- `FixedSamplingPolicy.__init__`: the parameter is clamped by
`max(1, int(sample_every_s))`. -/
def fixedMk (sample_every_s : ℤ) : ℤ := max 1 sample_every_s

/-- `FixedSamplingPolicy.step`: always awake; sample and transmit when
`t_s % sample_every_s == 0`.  Stateless (`σ = Unit`). -/
def fixedStep (sample_every_s : ℤ) (st : Unit) (t_s : ℤ)
    (last_measurement : Option ℚ) (last_tx_s : Option ℤ) : PolicyOutput × Unit :=
  let _ := last_measurement
  let _ := last_tx_s
  let d := decide (t_s % sample_every_s = 0)
  (⟨true, d, d⟩, st)

/-- `FixedSamplingPolicy` as a `Policy`. -/
def fixedPolicy (sample_every_s : ℤ) : Policy Unit :=
  ⟨(), fixedStep (fixedMk sample_every_s)⟩

/-- `DutyCyclingPolicy` constructor parameters, after the
`max(1, int(...))` clamping done by `__init__`. -/
structure DutyParams where
  wake_every_s : ℤ
  awake_window_s : ℤ
  sample_every_s : ℤ
deriving DecidableEq

/-- `DutyCyclingPolicy.__init__`. -/
def dutyMk (wake_every_s awake_window_s sample_every_s : ℤ) : DutyParams :=
  ⟨max 1 wake_every_s, max 1 awake_window_s, max 1 sample_every_s⟩

/-- `DutyCyclingPolicy.step`:
`phase = t_s % wake_every_s`; `awake = phase < awake_window_s`;
`do = awake and (t_s % sample_every_s == 0)`.  Stateless (`σ = Unit`). -/
def dutyStep (p : DutyParams) (st : Unit) (t_s : ℤ)
    (last_measurement : Option ℚ) (last_tx_s : Option ℤ) : PolicyOutput × Unit :=
  let _ := last_measurement
  let _ := last_tx_s
  let phase := t_s % p.wake_every_s
  let awake := decide (phase < p.awake_window_s)
  let d := awake && decide (t_s % p.sample_every_s = 0)
  (⟨awake, d, d⟩, st)

/-- `DutyCyclingPolicy` as a `Policy`. -/
def dutyPolicy (wake_every_s awake_window_s sample_every_s : ℤ) : Policy Unit :=
  ⟨(), dutyStep (dutyMk wake_every_s awake_window_s sample_every_s)⟩

/-- `AdaptiveThresholdPolicy` constructor parameters, after
`max(1, int(...))` clamping of `base_every_s` and `max_silence_s`. -/
structure AdaptiveParams where
  base_every_s : ℤ
  threshold : ℚ
  max_silence_s : ℤ
deriving DecidableEq

/-- `AdaptiveThresholdPolicy.__init__`. -/
def adaptiveMk (base_every_s : ℤ) (threshold : ℚ) (max_silence_s : ℤ) : AdaptiveParams :=
  ⟨max 1 base_every_s, threshold, max 1 max_silence_s⟩

/-- `AdaptiveThresholdPolicy.step`.  The internal state `st` is
`self._last_tx_value`.  Mirrors the Python control flow:
`take_sample = (t_s % base_every_s == 0)`; the transmit decision is made
only when `take_sample` holds and `last_measurement` is not `None`; then
transmit iff `_last_tx_value is None`, or
`abs(last_measurement - _last_tx_value) >= threshold`, or (keep-alive)
`last_tx_s` is set and `t_s - last_tx_s >= max_silence_s`; on transmit,
`_last_tx_value` is updated to `last_measurement`. -/
def adaptiveStep (p : AdaptiveParams) (st : Option ℚ) (t_s : ℤ)
    (last_measurement : Option ℚ) (last_tx_s : Option ℤ) : PolicyOutput × Option ℚ :=
  let ts := decide (t_s % p.base_every_s = 0)
  match last_measurement, ts with
  | some m, true =>
    let tx1 : Bool :=
      match st with
      | none => true
      | some v => decide (p.threshold ≤ |m - v|)
    let tx : Bool :=
      if tx1 then true
      else
        match last_tx_s with
        | none => false
        | some ls => decide ((p.max_silence_s : ℚ) ≤ ((t_s - ls : ℤ) : ℚ))
    (⟨true, ts, tx⟩, if tx then some m else st)
  | _, _ => (⟨true, ts, false⟩, st)

/-- `AdaptiveThresholdPolicy` as a `Policy`; `reset()` sets
`_last_tx_value = None`. -/
def adaptivePolicy (base_every_s : ℤ) (threshold : ℚ) (max_silence_s : ℤ) :
    Policy (Option ℚ) :=
  ⟨none, adaptiveStep (adaptiveMk base_every_s threshold max_silence_s)⟩

/-! ## The simulation loop (`sensor_sim/simulator.py`, `simulate`) -/

/-- The local loop state of `simulate`, immediately before processing a
step index: the policy's internal state, the five output sequences built so
far, the five energy accumulators, the `last_measurement` /
`last_tx_value` / `last_tx_s` running values, the two counters, and
`recon_val`. -/
structure SimState (σ : Type) where
  ps : σ
  t : List ℤ
  truth : List ℚ
  measured : List (Option ℚ)
  sent : List Bool
  reconstructed : List ℚ
  eSleep : ℚ
  eIdle : ℚ
  eSense : ℚ
  eCpu : ℚ
  eTx : ℚ
  lastMeasurement : Option ℚ
  lastTxValue : Option ℚ
  lastTxS : Option ℤ
  samplesTaken : ℕ
  packetsSent : ℕ
  reconVal : ℚ

/-- The tick time `now_s = int(round(i * dt_s))` of loop iteration `i`. -/
def tickNow (cfg : NodeConfig) (i : ℕ) : ℤ := pyRound ((i : ℚ) * cfg.dt_s)

/-- The `policy.step` call made inside loop iteration `i` of `simulate`:
the policy is consulted with the state's `lastMeasurement` and `lastTxS`,
i.e. *before* this tick's sample is taken. -/
def tickOut {σ : Type} (P : Policy σ) (cfg : NodeConfig) (s : SimState σ) (i : ℕ) :
    PolicyOutput × σ :=
  P.step s.ps (tickNow cfg i) s.lastMeasurement s.lastTxS

/-- `out.awake and out.take_sample`: whether iteration `i` senses. -/
def tickSampled {σ : Type} (P : Policy σ) (cfg : NodeConfig) (s : SimState σ) (i : ℕ) :
    Bool :=
  (tickOut P cfg s i).1.awake && (tickOut P cfg s i).1.take_sample

/-- `mval`: the measurement of iteration `i` (`None` when not sensing);
sensing draws `gt + gauss(0, noise_std)`, where the k-th gauss draw for
seed `s` is `noise_std * rng s k` and `k = samples_taken` so far. -/
def tickMval {σ : Type} (P : Policy σ) (cfg : NodeConfig) (sinF : ℚ → ℚ) (piQ : ℚ)
    (rng : ℤ → ℕ → ℚ) (s : SimState σ) (i : ℕ) : Option ℚ :=
  if tickSampled P cfg s i then
    some (ground_truth sinF piQ (tickNow cfg i) cfg +
      cfg.noise_std * rng cfg.seed s.samplesTaken)
  else none

/-- The `last_measurement` value after the optional sensing of iteration
`i` (the value visible to the transmit branch of the same iteration). -/
def tickLm {σ : Type} (P : Policy σ) (cfg : NodeConfig) (sinF : ℚ → ℚ) (piQ : ℚ)
    (rng : ℤ → ℕ → ℚ) (s : SimState σ) (i : ℕ) : Option ℚ :=
  if tickSampled P cfg s i then tickMval P cfg sinF piQ rng s i else s.lastMeasurement

/-- `out.awake and out.transmit and (last_measurement is not None)`:
whether iteration `i` transmits. -/
def tickDidTx {σ : Type} (P : Policy σ) (cfg : NodeConfig) (sinF : ℚ → ℚ) (piQ : ℚ)
    (rng : ℤ → ℕ → ℚ) (s : SimState σ) (i : ℕ) : Bool :=
  (tickOut P cfg s i).1.awake && (tickOut P cfg s i).1.transmit &&
    (tickLm P cfg sinF piQ rng s i).isSome

/-- One iteration of the `for i in range(steps + 1)` loop of `simulate`. -/
def tick {σ : Type} (P : Policy σ) (cfg : NodeConfig) (E : EnergyModel)
    (sinF : ℚ → ℚ) (piQ : ℚ) (rng : ℤ → ℕ → ℚ) (s : SimState σ) (i : ℕ) :
    SimState σ :=
  { ps := (tickOut P cfg s i).2
    t := s.t ++ [tickNow cfg i]
    truth := s.truth ++ [ground_truth sinF piQ (tickNow cfg i) cfg]
    measured := s.measured ++ [tickMval P cfg sinF piQ rng s i]
    sent := s.sent ++ [tickDidTx P cfg sinF piQ rng s i]
    reconstructed := s.reconstructed ++
      [if tickDidTx P cfg sinF piQ rng s i then
        (tickLm P cfg sinF piQ rng s i).getD s.reconVal else s.reconVal]
    eSleep := if (tickOut P cfg s i).1.awake then s.eSleep
      else s.eSleep + E.e_sleep cfg.dt_s
    eIdle := if (tickOut P cfg s i).1.awake then s.eIdle + E.e_idle_awake cfg.dt_s
      else s.eIdle
    eSense := if tickSampled P cfg s i then s.eSense + E.e_sense else s.eSense
    eCpu := if tickSampled P cfg s i then s.eCpu + E.e_cpu else s.eCpu
    eTx := if tickDidTx P cfg sinF piQ rng s i then s.eTx + E.e_tx cfg.payload_bytes
      else s.eTx
    lastMeasurement := tickLm P cfg sinF piQ rng s i
    lastTxValue := if tickDidTx P cfg sinF piQ rng s i then tickLm P cfg sinF piQ rng s i
      else s.lastTxValue
    lastTxS := if tickDidTx P cfg sinF piQ rng s i then some (tickNow cfg i) else s.lastTxS
    samplesTaken := if tickSampled P cfg s i then s.samplesTaken + 1 else s.samplesTaken
    packetsSent := if tickDidTx P cfg sinF piQ rng s i then s.packetsSent + 1
      else s.packetsSent
    reconVal := if tickDidTx P cfg sinF piQ rng s i then
      (tickLm P cfg sinF piQ rng s i).getD s.reconVal else s.reconVal }

/-- The loop state of `simulate` just before iteration `0`:
`policy.reset()` has run, all sequences are empty, all accumulators are
zero, and `recon_val = ground_truth(0, cfg)`. -/
def initState {σ : Type} (P : Policy σ) (cfg : NodeConfig)
    (sinF : ℚ → ℚ) (piQ : ℚ) : SimState σ :=
  { ps := P.reset, t := [], truth := [], measured := [], sent := [],
    reconstructed := [], eSleep := 0, eIdle := 0, eSense := 0, eCpu := 0,
    eTx := 0, lastMeasurement := none, lastTxValue := none, lastTxS := none,
    samplesTaken := 0, packetsSent := 0,
    reconVal := ground_truth sinF piQ 0 cfg }

/-- The loop state of `simulate` after the first `n` iterations.  In
particular, `iterState … i` is the state *at the start of* iteration `i`,
so the arguments handed to `policy.step` at tick index `i` are
`(iterState … i).ps`, the tick time, `(iterState … i).lastMeasurement` and
`(iterState … i).lastTxS`. -/
def iterState {σ : Type} (P : Policy σ) (cfg : NodeConfig) (E : EnergyModel)
    (sinF : ℚ → ℚ) (piQ : ℚ) (rng : ℤ → ℕ → ℚ) (n : ℕ) : SimState σ :=
  (List.range n).foldl (tick P cfg E sinF piQ rng) (initState P cfg sinF piQ)

/-- The `PolicyOutput` produced by the policy at tick index `i` of a run of
`simulate` (the first component of the `policy.step` call made inside
iteration `i` of the loop). -/
def stepOutputAt {σ : Type} (P : Policy σ) (cfg : NodeConfig) (E : EnergyModel)
    (sinF : ℚ → ℚ) (piQ : ℚ) (rng : ℤ → ℕ → ℚ) (i : ℕ) : PolicyOutput :=
  (P.step (iterState P cfg E sinF piQ rng i).ps (pyRound ((i : ℚ) * cfg.dt_s))
    (iterState P cfg E sinF piQ rng i).lastMeasurement
    (iterState P cfg E sinF piQ rng i).lastTxS).1

/-- The `last_measurement` argument handed to `policy.step` at tick index
`i` of a run of `simulate`. -/
def stepArgAt {σ : Type} (P : Policy σ) (cfg : NodeConfig) (E : EnergyModel)
    (sinF : ℚ → ℚ) (piQ : ℚ) (rng : ℤ → ℕ → ℚ) (i : ℕ) : Option ℚ :=
  (iterState P cfg E sinF piQ rng i).lastMeasurement

/-- `simulate` from `sensor_sim/simulator.py`.  Returns `none` exactly when
the Python code raises, which can happen at exactly two places:
* the `ZeroDivisionError` from `int(cfg.duration_s / cfg.dt_s)` when
  `dt_s == 0`, before the loop;
* the `ZeroDivisionError` from `bits / self.bitrate_bps` inside
  `EnergyModel.e_tx` (`models.py` line 43) when `bitrate_bps == 0`, raised
  at the first transmission of the run.  The energy accounting never feeds
  back into the loop's control flow or output sequences, so the loop
  transmits at some tick iff the error-free evolution ends with
  `packets_sent > 0`; the run raises exactly when `bitrate_bps = 0` and
  that holds, and no `SimResult` is produced then.

Otherwise it runs `steps + 1 = int(duration_s / dt_s) + 1` iterations
(none, when that quantity is not positive) and assembles the `SimResult`,
with `mae = (Σ |truth[i] - reconstructed[i]|) / max(1, len(truth))`. -/
def simulate {σ : Type} (P : Policy σ) (cfg : NodeConfig) (E : EnergyModel)
    (sinF : ℚ → ℚ) (piQ : ℚ) (rng : ℤ → ℕ → ℚ) : Option SimResult :=
  if cfg.dt_s = 0 then none
  else if E.bitrate_bps = 0 ∧
      0 < (iterState P cfg E sinF piQ rng
        (pyTrunc ((cfg.duration_s : ℚ) / cfg.dt_s) + 1).toNat).packetsSent then none
  else
    some
      { t := (iterState P cfg E sinF piQ rng
          (pyTrunc ((cfg.duration_s : ℚ) / cfg.dt_s) + 1).toNat).t
        truth := (iterState P cfg E sinF piQ rng
          (pyTrunc ((cfg.duration_s : ℚ) / cfg.dt_s) + 1).toNat).truth
        measured := (iterState P cfg E sinF piQ rng
          (pyTrunc ((cfg.duration_s : ℚ) / cfg.dt_s) + 1).toNat).measured
        sent := (iterState P cfg E sinF piQ rng
          (pyTrunc ((cfg.duration_s : ℚ) / cfg.dt_s) + 1).toNat).sent
        reconstructed := (iterState P cfg E sinF piQ rng
          (pyTrunc ((cfg.duration_s : ℚ) / cfg.dt_s) + 1).toNat).reconstructed
        energy_total_mj := (iterState P cfg E sinF piQ rng
            (pyTrunc ((cfg.duration_s : ℚ) / cfg.dt_s) + 1).toNat).eSleep +
          (iterState P cfg E sinF piQ rng
            (pyTrunc ((cfg.duration_s : ℚ) / cfg.dt_s) + 1).toNat).eIdle +
          (iterState P cfg E sinF piQ rng
            (pyTrunc ((cfg.duration_s : ℚ) / cfg.dt_s) + 1).toNat).eSense +
          (iterState P cfg E sinF piQ rng
            (pyTrunc ((cfg.duration_s : ℚ) / cfg.dt_s) + 1).toNat).eCpu +
          (iterState P cfg E sinF piQ rng
            (pyTrunc ((cfg.duration_s : ℚ) / cfg.dt_s) + 1).toNat).eTx
        energy_breakdown_mj :=
          [("sleep", (iterState P cfg E sinF piQ rng
              (pyTrunc ((cfg.duration_s : ℚ) / cfg.dt_s) + 1).toNat).eSleep),
           ("idle_awake", (iterState P cfg E sinF piQ rng
              (pyTrunc ((cfg.duration_s : ℚ) / cfg.dt_s) + 1).toNat).eIdle),
           ("sensing", (iterState P cfg E sinF piQ rng
              (pyTrunc ((cfg.duration_s : ℚ) / cfg.dt_s) + 1).toNat).eSense),
           ("cpu", (iterState P cfg E sinF piQ rng
              (pyTrunc ((cfg.duration_s : ℚ) / cfg.dt_s) + 1).toNat).eCpu),
           ("tx", (iterState P cfg E sinF piQ rng
              (pyTrunc ((cfg.duration_s : ℚ) / cfg.dt_s) + 1).toNat).eTx)]
        samples_taken := (iterState P cfg E sinF piQ rng
          (pyTrunc ((cfg.duration_s : ℚ) / cfg.dt_s) + 1).toNat).samplesTaken
        packets_sent := (iterState P cfg E sinF piQ rng
          (pyTrunc ((cfg.duration_s : ℚ) / cfg.dt_s) + 1).toNat).packetsSent
        mae := (((iterState P cfg E sinF piQ rng
            (pyTrunc ((cfg.duration_s : ℚ) / cfg.dt_s) + 1).toNat).truth.zip
            (iterState P cfg E sinF piQ rng
              (pyTrunc ((cfg.duration_s : ℚ) / cfg.dt_s) + 1).toNat).reconstructed).foldl
            (fun a p => a + |p.1 - p.2|) 0) /
          (max 1 (iterState P cfg E sinF piQ rng
            (pyTrunc ((cfg.duration_s : ℚ) / cfg.dt_s) + 1).toNat).truth.length : ℕ) }

/-! ## Concrete instances used by counterexamples and witnesses -/

/-- A degenerate sine model (`sin` replaced by the zero function); the
structural claims hold for every `sinF`, and counterexamples instantiate it. -/
def sinZero : ℚ → ℚ := fun _ => 0

/-- A degenerate noise model: every gauss draw is `0`. -/
def rngZero : ℤ → ℕ → ℚ := fun _ _ => 0

/-- The configuration of spec section 8's adaptive-policy scenario
(claim C5): duration 30, `dt` 1, all other fields at the Python defaults. -/
def cfgC5 : NodeConfig :=
  { duration_s := 30, dt_s := 1, payload_bytes := 24, seed := 42,
    signal_base := 20, signal_amp := 3, signal_period_s := 120,
    noise_std := 1/5, change_threshold := 1/2, max_silence_s := 30 }

/-- The default `EnergyModel()` of `sensor_sim/models.py` as exact
rationals. -/
def eDefault : EnergyModel :=
  { power_sleep_mw := 1/2, power_idle_awake_mw := 15, power_cpu_mw := 35,
    power_sense_mw := 25, power_tx_mw := 120, t_sense_s := 1/100,
    t_cpu_s := 1/250, bitrate_bps := 250000, tx_overhead_s := 1/500 }

/-- An invalid configuration (negative duration) used to probe the missing
fail-fast validation (claim C2). -/
def cfgNegDur : NodeConfig :=
  { duration_s := -1, dt_s := 1, payload_bytes := 24, seed := 42,
    signal_base := 20, signal_amp := 3, signal_period_s := 120,
    noise_std := 1/5, change_threshold := 1/2, max_silence_s := 30 }

/-- A two-tick configuration (duration 1, `dt` 1) for small witnesses. -/
def cfgTiny : NodeConfig :=
  { duration_s := 1, dt_s := 1, payload_bytes := 24, seed := 42,
    signal_base := 20, signal_amp := 3, signal_period_s := 120,
    noise_std := 1/5, change_threshold := 1/2, max_silence_s := 30 }

/-- A configuration with `signal_period_s < 1`, where `ground_truth`'s
`max(1.0, signal_period_s)` clamping differs from the spec's formula
(claim C8). -/
def cfgShortPeriod : NodeConfig :=
  { duration_s := 30, dt_s := 1, payload_bytes := 24, seed := 42,
    signal_base := 0, signal_amp := 1, signal_period_s := 1/2,
    noise_std := 1/5, change_threshold := 1/2, max_silence_s := 30 }

/-- A `BasePolicy` implementation that samples only at tick 0 and
transmits only at tick 1: it witnesses that `sent[i]` can be true while
`measured[i]` is absent (claim C6). -/
def oneShotPolicy : Policy Unit :=
  ⟨(), fun st t_s _ _ => (⟨true, decide (t_s = 0), decide (t_s = 1)⟩, st)⟩

/-- The value of the most recent `some` entry of a list of optional
measurements (`none` if every entry is `none`): what "the measurement taken
at the most recent sampling tick" means for a measured-prefix. -/
def lastSome (l : List (Option ℚ)) : Option ℚ :=
  l.foldl (fun acc o => match o with | some v => some v | none => acc) none

/-! ## Helper lemmas -/

theorem pyTrunc_intCast (n : ℤ) : pyTrunc ((n : ℤ) : ℚ) = n := by
  unfold pyTrunc
  split
  · exact Int.floor_intCast n
  · rw [show (-(n : ℚ)) = ((-n : ℤ) : ℚ) by push_cast; ring, Int.floor_intCast]
    ring

theorem pyRound_intCast (n : ℤ) : pyRound ((n : ℤ) : ℚ) = n := by
  unfold pyRound
  rw [Int.floor_intCast, sub_self]
  norm_num

theorem pyRound_natCast (n : ℕ) : pyRound ((n : ℕ) : ℚ) = n := by
  rw [show ((n : ℕ) : ℚ) = ((n : ℤ) : ℚ) by push_cast; ring, pyRound_intCast]

theorem opt_eq_some_getD {α : Type} (o : Option α) (d : α) (h : o.isSome = true) :
    o = some (o.getD d) := by
  cases o with
  | none => simp at h
  | some v => rfl

theorem lastSome_append_some (l : List (Option ℚ)) (v : ℚ) :
    lastSome (l ++ [some v]) = some v := by
  unfold lastSome
  rw [List.foldl_append]
  rfl

theorem lastSome_append_none (l : List (Option ℚ)) :
    lastSome (l ++ [none]) = lastSome l := by
  unfold lastSome
  rw [List.foldl_append]
  rfl

theorem tick_t_length {σ : Type} (P : Policy σ) (cfg : NodeConfig) (E : EnergyModel)
    (sinF : ℚ → ℚ) (piQ : ℚ) (rng : ℤ → ℕ → ℚ) (s : SimState σ) (i : ℕ) :
    (tick P cfg E sinF piQ rng s i).t.length = s.t.length + 1 := by
  simp [tick]

theorem tick_truth_length {σ : Type} (P : Policy σ) (cfg : NodeConfig) (E : EnergyModel)
    (sinF : ℚ → ℚ) (piQ : ℚ) (rng : ℤ → ℕ → ℚ) (s : SimState σ) (i : ℕ) :
    (tick P cfg E sinF piQ rng s i).truth.length = s.truth.length + 1 := by
  simp [tick]

theorem tick_measured_length {σ : Type} (P : Policy σ) (cfg : NodeConfig) (E : EnergyModel)
    (sinF : ℚ → ℚ) (piQ : ℚ) (rng : ℤ → ℕ → ℚ) (s : SimState σ) (i : ℕ) :
    (tick P cfg E sinF piQ rng s i).measured.length = s.measured.length + 1 := by
  simp [tick]

theorem tick_sent_length {σ : Type} (P : Policy σ) (cfg : NodeConfig) (E : EnergyModel)
    (sinF : ℚ → ℚ) (piQ : ℚ) (rng : ℤ → ℕ → ℚ) (s : SimState σ) (i : ℕ) :
    (tick P cfg E sinF piQ rng s i).sent.length = s.sent.length + 1 := by
  simp [tick]

theorem tick_reconstructed_length {σ : Type} (P : Policy σ) (cfg : NodeConfig)
    (E : EnergyModel) (sinF : ℚ → ℚ) (piQ : ℚ) (rng : ℤ → ℕ → ℚ) (s : SimState σ) (i : ℕ) :
    (tick P cfg E sinF piQ rng s i).reconstructed.length = s.reconstructed.length + 1 := by
  simp [tick]

theorem foldl_tick_t_length {σ : Type} (P : Policy σ) (cfg : NodeConfig) (E : EnergyModel)
    (sinF : ℚ → ℚ) (piQ : ℚ) (rng : ℤ → ℕ → ℚ) :
    ∀ (l : List ℕ) (s : SimState σ),
      (List.foldl (tick P cfg E sinF piQ rng) s l).t.length = s.t.length + l.length := by
  intro l
  induction l with
  | nil => intro s; simp
  | cons a l ih =>
    intro s
    rw [List.foldl_cons, ih, tick_t_length]
    simp [Nat.add_assoc, Nat.add_comm 1 l.length]

theorem foldl_tick_truth_length {σ : Type} (P : Policy σ) (cfg : NodeConfig)
    (E : EnergyModel) (sinF : ℚ → ℚ) (piQ : ℚ) (rng : ℤ → ℕ → ℚ) :
    ∀ (l : List ℕ) (s : SimState σ),
      (List.foldl (tick P cfg E sinF piQ rng) s l).truth.length = s.truth.length + l.length := by
  intro l
  induction l with
  | nil => intro s; simp
  | cons a l ih =>
    intro s
    rw [List.foldl_cons, ih, tick_truth_length]
    simp [Nat.add_assoc, Nat.add_comm 1 l.length]

theorem foldl_tick_measured_length {σ : Type} (P : Policy σ) (cfg : NodeConfig)
    (E : EnergyModel) (sinF : ℚ → ℚ) (piQ : ℚ) (rng : ℤ → ℕ → ℚ) :
    ∀ (l : List ℕ) (s : SimState σ),
      (List.foldl (tick P cfg E sinF piQ rng) s l).measured.length =
        s.measured.length + l.length := by
  intro l
  induction l with
  | nil => intro s; simp
  | cons a l ih =>
    intro s
    rw [List.foldl_cons, ih, tick_measured_length]
    simp [Nat.add_assoc, Nat.add_comm 1 l.length]

theorem foldl_tick_sent_length {σ : Type} (P : Policy σ) (cfg : NodeConfig)
    (E : EnergyModel) (sinF : ℚ → ℚ) (piQ : ℚ) (rng : ℤ → ℕ → ℚ) :
    ∀ (l : List ℕ) (s : SimState σ),
      (List.foldl (tick P cfg E sinF piQ rng) s l).sent.length = s.sent.length + l.length := by
  intro l
  induction l with
  | nil => intro s; simp
  | cons a l ih =>
    intro s
    rw [List.foldl_cons, ih, tick_sent_length]
    simp [Nat.add_assoc, Nat.add_comm 1 l.length]

theorem foldl_tick_reconstructed_length {σ : Type} (P : Policy σ) (cfg : NodeConfig)
    (E : EnergyModel) (sinF : ℚ → ℚ) (piQ : ℚ) (rng : ℤ → ℕ → ℚ) :
    ∀ (l : List ℕ) (s : SimState σ),
      (List.foldl (tick P cfg E sinF piQ rng) s l).reconstructed.length =
        s.reconstructed.length + l.length := by
  intro l
  induction l with
  | nil => intro s; simp
  | cons a l ih =>
    intro s
    rw [List.foldl_cons, ih, tick_reconstructed_length]
    simp [Nat.add_assoc, Nat.add_comm 1 l.length]

theorem iterState_t_length {σ : Type} (P : Policy σ) (cfg : NodeConfig) (E : EnergyModel)
    (sinF : ℚ → ℚ) (piQ : ℚ) (rng : ℤ → ℕ → ℚ) (n : ℕ) :
    (iterState P cfg E sinF piQ rng n).t.length = n := by
  unfold iterState
  rw [foldl_tick_t_length]
  simp [initState]

theorem iterState_truth_length {σ : Type} (P : Policy σ) (cfg : NodeConfig) (E : EnergyModel)
    (sinF : ℚ → ℚ) (piQ : ℚ) (rng : ℤ → ℕ → ℚ) (n : ℕ) :
    (iterState P cfg E sinF piQ rng n).truth.length = n := by
  unfold iterState
  rw [foldl_tick_truth_length]
  simp [initState]

theorem iterState_measured_length {σ : Type} (P : Policy σ) (cfg : NodeConfig)
    (E : EnergyModel) (sinF : ℚ → ℚ) (piQ : ℚ) (rng : ℤ → ℕ → ℚ) (n : ℕ) :
    (iterState P cfg E sinF piQ rng n).measured.length = n := by
  unfold iterState
  rw [foldl_tick_measured_length]
  simp [initState]

theorem iterState_sent_length {σ : Type} (P : Policy σ) (cfg : NodeConfig) (E : EnergyModel)
    (sinF : ℚ → ℚ) (piQ : ℚ) (rng : ℤ → ℕ → ℚ) (n : ℕ) :
    (iterState P cfg E sinF piQ rng n).sent.length = n := by
  unfold iterState
  rw [foldl_tick_sent_length]
  simp [initState]

theorem iterState_reconstructed_length {σ : Type} (P : Policy σ) (cfg : NodeConfig)
    (E : EnergyModel) (sinF : ℚ → ℚ) (piQ : ℚ) (rng : ℤ → ℕ → ℚ) (n : ℕ) :
    (iterState P cfg E sinF piQ rng n).reconstructed.length = n := by
  unfold iterState
  rw [foldl_tick_reconstructed_length]
  simp [initState]

/-! ## Claim C3 -/

/-- C3: for every policy, every valid configuration (`duration_s > 0`,
`dt_s > 0`) and every energy model under which the run completes (a
non-zero `bitrate_bps`, so `EnergyModel.e_tx` cannot raise — with
`bitrate_bps = 0` the source raises `ZeroDivisionError` at the first
transmission and returns nothing at all, cf. C2), `simulate` returns a
`SimResult` whose five parallel sequences `t`, `truth`, `measured`,
`sent`, `reconstructed` all have identical length, equal to
`floor(duration_s / dt_s) + 1`. -/
theorem C3_theorem {σ : Type} (P : Policy σ) (cfg : NodeConfig) (E : EnergyModel)
    (sinF : ℚ → ℚ) (piQ : ℚ) (rng : ℤ → ℕ → ℚ)
    (h1 : 0 < cfg.duration_s) (h2 : 0 < cfg.dt_s) (h3 : E.bitrate_bps ≠ 0) :
    ∃ r, simulate P cfg E sinF piQ rng = some r ∧
      r.truth.length = r.t.length ∧ r.measured.length = r.t.length ∧
      r.sent.length = r.t.length ∧ r.reconstructed.length = r.t.length ∧
      (r.t.length : ℤ) = ⌊(cfg.duration_s : ℚ) / cfg.dt_s⌋ + 1 := by
  have hne : cfg.dt_s ≠ 0 := ne_of_gt h2
  have hq : 0 < (cfg.duration_s : ℚ) / cfg.dt_s := by
    apply div_pos _ h2
    exact_mod_cast h1
  have hsteps : pyTrunc ((cfg.duration_s : ℚ) / cfg.dt_s) =
      ⌊(cfg.duration_s : ℚ) / cfg.dt_s⌋ := by
    unfold pyTrunc
    rw [if_pos (le_of_lt hq)]
  have hfl : 0 ≤ ⌊(cfg.duration_s : ℚ) / cfg.dt_s⌋ := Int.floor_nonneg.mpr (le_of_lt hq)
  unfold simulate
  rw [if_neg hne]
  rw [if_neg (by simp [h3] :
    ¬(E.bitrate_bps = 0 ∧ 0 < (iterState P cfg E sinF piQ rng
      (pyTrunc ((cfg.duration_s : ℚ) / cfg.dt_s) + 1).toNat).packetsSent))]
  refine ⟨_, rfl, ?_, ?_, ?_, ?_, ?_⟩ <;>
    simp only [iterState_t_length, iterState_truth_length, iterState_measured_length,
      iterState_sent_length, iterState_reconstructed_length]
  rw [hsteps, Int.toNat_of_nonneg (by omega)]

/-- Witness for C3 at a concrete input: the fixed policy over the default
30-second configuration. -/
theorem C3_witness :
    ∃ r, simulate (fixedPolicy 5) cfgC5 eDefault sinZero 3 rngZero = some r ∧
      r.truth.length = r.t.length ∧ r.measured.length = r.t.length ∧
      r.sent.length = r.t.length ∧ r.reconstructed.length = r.t.length ∧
      (r.t.length : ℤ) = ⌊(cfgC5.duration_s : ℚ) / cfgC5.dt_s⌋ + 1 :=
  C3_theorem _ _ _ _ _ _ (by decide) (by norm_num [cfgC5]) (by norm_num [eDefault])

/-! ## Claim C9 -/

/-- C9: determinism of `simulate`.  Two calls with equal policies (the
policy is reset at the start of each run, so the initial internal state is
fixed by construction), equal configurations (the seed is a configuration
field, and the gauss-draw stream `rng` is a function of the seed alone),
equal energy models and equal sine/pi models produce equal `SimResult`s in
every field. -/
theorem C9_theorem {σ : Type} (P₁ P₂ : Policy σ) (cfg₁ cfg₂ : NodeConfig)
    (E₁ E₂ : EnergyModel) (sinF₁ sinF₂ : ℚ → ℚ) (piQ₁ piQ₂ : ℚ)
    (rng₁ rng₂ : ℤ → ℕ → ℚ) (hP : P₁ = P₂) (hc : cfg₁ = cfg₂) (hE : E₁ = E₂)
    (hs : sinF₁ = sinF₂) (hp : piQ₁ = piQ₂) (hr : rng₁ = rng₂) :
    simulate P₁ cfg₁ E₁ sinF₁ piQ₁ rng₁ = simulate P₂ cfg₂ E₂ sinF₂ piQ₂ rng₂ := by
  subst hP hc hE hs hp hr
  rfl

/-- Witness for C9 at a concrete input: the adaptive policy with the
default parameters, run twice on the default configuration. -/
theorem C9_witness :
    simulate (adaptivePolicy 2 (1/2) 30) cfgC5 eDefault sinZero 3 rngZero =
      simulate (adaptivePolicy 2 (1/2) 30) cfgC5 eDefault sinZero 3 rngZero :=
  C9_theorem _ _ _ _ _ _ _ _ _ _ _ _ rfl rfl rfl rfl rfl rfl

/-! ## Claim C7 -/

/-- C7: for every constructed `DutyCyclingPolicy` (parameters clamped by
`max(1, ·)`) and every tick time `t`, the step output has
`awake = (t % wake_every_s < awake_window_s)` and
`take_sample = transmit = awake && (t % sample_every_s == 0)`, with both
modulos taken on the absolute time `t`; and the output is independent of
the `last_measurement` and `last_tx_s` arguments and of any internal
state. -/
theorem C7_theorem (w a s t : ℤ) (u u' : Unit) (lm lm' : Option ℚ) (ltx ltx' : Option ℤ) :
    dutyStep (dutyMk w a s) u t lm ltx =
      (⟨decide (t % max 1 w < max 1 a),
        decide (t % max 1 w < max 1 a) && decide (t % max 1 s = 0),
        decide (t % max 1 w < max 1 a) && decide (t % max 1 s = 0)⟩, ()) ∧
    dutyStep (dutyMk w a s) u t lm ltx = dutyStep (dutyMk w a s) u' t lm' ltx' :=
  ⟨rfl, rfl⟩

/-! ## Claim C8 -/

/-- C8 (amended): when `signal_period_s ≥ 1`, `ground_truth` equals the
spec's formula `signal_base + signal_amp·sin(2π·t/period) +
0.25·sin(2π·0.33·t/period)`; in general the code divides by
`max(1.0, signal_period_s)`, not by `signal_period_s`. -/
theorem C8_theorem (sinF : ℚ → ℚ) (piQ : ℚ) (t : ℤ) (cfg : NodeConfig)
    (ht : 0 ≤ t) (hp : 1 ≤ cfg.signal_period_s) :
    ground_truth sinF piQ t cfg = ground_truth_spec sinF piQ t cfg := by
  unfold ground_truth ground_truth_spec
  rw [max_eq_right hp]
  rw [show 2 * piQ / cfg.signal_period_s * t = 2 * piQ * t / cfg.signal_period_s by ring]
  rw [show 2 * piQ / cfg.signal_period_s * (33/100) * t =
      2 * piQ * (33/100) * t / cfg.signal_period_s by ring]

/-- Witness for C8 at a concrete input (`t = 1`, default configuration,
period `120 ≥ 1`). -/
theorem C8_witness :
    ground_truth (fun q => q) 3 1 cfgC5 = ground_truth_spec (fun q => q) 3 1 cfgC5 :=
  C8_theorem _ _ _ _ (by decide) (by norm_num [cfgC5])

/-- Counterexample to C8 as stated: at `t = 1 ≥ 0` with
`signal_period_s = 1/2 < 1`, the code's value (frequency divisor
`max(1, 1/2) = 1`) differs from the spec's formula (divisor `1/2`), for the
explicit sine model `sinF = id`, `piQ = 3`. -/
theorem C8_counterexample :
    (0 : ℤ) ≤ 1 ∧
    ground_truth (fun q => q) 3 1 cfgShortPeriod ≠
      ground_truth_spec (fun q => q) 3 1 cfgShortPeriod := by
  constructor
  · decide
  · norm_num [ground_truth, ground_truth_spec, cfgShortPeriod]

/-! ## Claim C2 -/

/-- C2 (amended): `simulate` performs no fail-fast configuration
validation and surfaces no configuration error.  In particular for
`duration_s < 0` with `dt_s = 1` it silently returns a normal `SimResult`
whose loop never executed (empty sequences).  The only ways a run fails to
produce a `SimResult` are the two unhandled `ZeroDivisionError`s:
`dt_s = 0` (raised at the `steps` computation, before the loop), and
`bitrate_bps = 0` on a run that reaches a transmission (raised inside
`EnergyModel.e_tx`, mid-loop); neither is a configuration error. -/
theorem C2_theorem {σ : Type} (P : Policy σ) (cfg : NodeConfig) (E : EnergyModel)
    (sinF : ℚ → ℚ) (piQ : ℚ) (rng : ℤ → ℕ → ℚ) :
    (cfg.dt_s = 0 → simulate P cfg E sinF piQ rng = none) ∧
    (cfg.duration_s < 0 → cfg.dt_s = 1 →
      ∃ r, simulate P cfg E sinF piQ rng = some r ∧ r.t = []) ∧
    (cfg.dt_s ≠ 0 → E.bitrate_bps = 0 →
      0 < (iterState P cfg E sinF piQ rng
        (pyTrunc ((cfg.duration_s : ℚ) / cfg.dt_s) + 1).toNat).packetsSent →
      simulate P cfg E sinF piQ rng = none) := by
  refine ⟨?_, ?_, ?_⟩
  · intro h
    rw [simulate, if_pos h]
  · intro hd hdt
    have hne : cfg.dt_s ≠ 0 := by rw [hdt]; norm_num
    have hq : (cfg.duration_s : ℚ) / cfg.dt_s = ((cfg.duration_s : ℤ) : ℚ) := by
      rw [hdt, div_one]
    have hsteps : pyTrunc ((cfg.duration_s : ℚ) / cfg.dt_s) = cfg.duration_s := by
      rw [hq, pyTrunc_intCast]
    have hN : (pyTrunc ((cfg.duration_s : ℚ) / cfg.dt_s) + 1).toNat = 0 := by
      rw [hsteps]
      exact Int.toNat_of_nonpos (by omega)
    have hpk : (iterState P cfg E sinF piQ rng 0).packetsSent = 0 := rfl
    unfold simulate
    rw [if_neg hne, hN]
    rw [if_neg (by simp [hpk] :
      ¬(E.bitrate_bps = 0 ∧ 0 < (iterState P cfg E sinF piQ rng 0).packetsSent))]
    exact ⟨_, rfl, rfl⟩
  · intro hne hb hpk
    rw [simulate, if_neg hne, if_pos ⟨hb, hpk⟩]

/-- Witness for C2's amended statement at a concrete input: for
`duration_s = -1`, `dt_s = 1` the run returns a `SimResult` with empty
sequences. -/
theorem C2_witness :
    ∃ r, simulate (fixedPolicy 5) cfgNegDur eDefault sinZero 3 rngZero = some r ∧
      r.t = [] :=
  (C2_theorem (fixedPolicy 5) cfgNegDur eDefault sinZero 3 rngZero).2.1 (by decide) rfl

/-- Counterexample to C2 as stated: with `duration_s = -1 ≤ 0` (and
`dt_s = 1`), `simulate` raises no configuration error and produces a
`SimResult` (with zero ticks executed). -/
theorem C2_counterexample :
    cfgNegDur.duration_s ≤ 0 ∧
    (simulate (fixedPolicy 5) cfgNegDur eDefault sinZero 3 rngZero).map (fun r => r.t) =
      some [] := by
  constructor
  · decide
  · norm_num [simulate, cfgNegDur, eDefault, iterState, initState, pyTrunc]


/-! ## Claim C4 -/

/-- The non-negativity invariant on the five energy accumulators. -/
def Inv4 {σ : Type} (s : SimState σ) : Prop :=
  0 ≤ s.eSleep ∧ 0 ≤ s.eIdle ∧ 0 ≤ s.eSense ∧ 0 ≤ s.eCpu ∧ 0 ≤ s.eTx

theorem tick_Inv4 {σ : Type} (P : Policy σ) (cfg : NodeConfig) (E : EnergyModel)
    (sinF : ℚ → ℚ) (piQ : ℚ) (rng : ℤ → ℕ → ℚ) (hE : E.Nonneg) (hdt : 0 ≤ cfg.dt_s)
    (hpb : 0 ≤ cfg.payload_bytes) (s : SimState σ) (i : ℕ) (h : Inv4 s) :
    Inv4 (tick P cfg E sinF piQ rng s i) := by
  obtain ⟨h1, h2, h3, h4, h5⟩ := h
  obtain ⟨e1, e2, e3, e4, e5, e6, e7, e8, e9⟩ := hE
  have ha : 0 ≤ E.e_sleep cfg.dt_s := mul_nonneg e1 hdt
  have hb : 0 ≤ E.e_idle_awake cfg.dt_s := mul_nonneg e2 hdt
  have hc : 0 ≤ E.e_sense := mul_nonneg e4 e6
  have hd : 0 ≤ E.e_cpu := mul_nonneg e3 e7
  have htx : 0 ≤ E.e_tx cfg.payload_bytes := by
    unfold EnergyModel.e_tx
    refine mul_nonneg e5 (add_nonneg e9 (div_nonneg ?_ e8))
    exact_mod_cast Int.mul_nonneg hpb (by norm_num)
  unfold Inv4 tick
  refine ⟨?_, ?_, ?_, ?_, ?_⟩ <;> dsimp only <;> (repeat' split) <;>
    first
    | assumption
    | exact add_nonneg h1 ha
    | exact add_nonneg h2 hb
    | exact add_nonneg h3 hc
    | exact add_nonneg h4 hd
    | exact add_nonneg h5 htx

theorem iterState_Inv4 {σ : Type} (P : Policy σ) (cfg : NodeConfig) (E : EnergyModel)
    (sinF : ℚ → ℚ) (piQ : ℚ) (rng : ℤ → ℕ → ℚ) (hE : E.Nonneg) (hdt : 0 ≤ cfg.dt_s)
    (hpb : 0 ≤ cfg.payload_bytes) (n : ℕ) :
    Inv4 (iterState P cfg E sinF piQ rng n) :=
  List.foldlRecOn _ _ _ ⟨le_rfl, le_rfl, le_rfl, le_rfl, le_rfl⟩
    (fun b hb a _ => tick_Inv4 P cfg E sinF piQ rng hE hdt hpb b a hb)

/-- C4: for every run of `simulate` with a non-negative energy model (and a
configuration respecting the spec's invariants `dt_s ≥ 0`,
`payload_bytes ≥ 0`), every value of `energy_breakdown_mj` is non-negative,
`energy_total_mj` is non-negative, the breakdown keys are exactly
sleep/idle_awake/sensing/cpu/tx, and `energy_total_mj` equals the sum of
the five breakdown values exactly. -/
theorem C4_theorem {σ : Type} (P : Policy σ) (cfg : NodeConfig) (E : EnergyModel)
    (sinF : ℚ → ℚ) (piQ : ℚ) (rng : ℤ → ℕ → ℚ) (r : SimResult)
    (hE : E.Nonneg) (hdt : 0 ≤ cfg.dt_s) (hpb : 0 ≤ cfg.payload_bytes)
    (hr : simulate P cfg E sinF piQ rng = some r) :
    (∀ p ∈ r.energy_breakdown_mj, 0 ≤ p.2) ∧ 0 ≤ r.energy_total_mj ∧
    r.energy_breakdown_mj.map Prod.fst = ["sleep", "idle_awake", "sensing", "cpu", "tx"] ∧
    r.energy_total_mj = (r.energy_breakdown_mj.map Prod.snd).sum := by
  by_cases h0 : cfg.dt_s = 0
  · rw [simulate, if_pos h0] at hr
    cases hr
  · rw [simulate, if_neg h0] at hr
    by_cases hg : E.bitrate_bps = 0 ∧
        0 < (iterState P cfg E sinF piQ rng
          (pyTrunc ((cfg.duration_s : ℚ) / cfg.dt_s) + 1).toNat).packetsSent
    · rw [if_pos hg] at hr
      cases hr
    · rw [if_neg hg] at hr
      have hr' := Option.some_inj.mp hr
      subst hr'
      obtain ⟨g1, g2, g3, g4, g5⟩ := iterState_Inv4 P cfg E sinF piQ rng hE hdt hpb
        (pyTrunc ((cfg.duration_s : ℚ) / cfg.dt_s) + 1).toNat
      refine ⟨?_, ?_, rfl, ?_⟩
      · intro p hp
        simp only [List.mem_cons, List.not_mem_nil, or_false] at hp
        rcases hp with rfl | rfl | rfl | rfl | rfl
        · exact g1
        · exact g2
        · exact g3
        · exact g4
        · exact g5
      · exact add_nonneg (add_nonneg (add_nonneg (add_nonneg g1 g2) g3) g4) g5
      · simp only [List.map_cons, List.map_nil, List.sum_cons, List.sum_nil]
        ring

/-- Witness for C4 at a concrete input (fixed policy, two-tick run,
default energy model). -/
theorem C4_witness :
    (∀ p ∈ ((simulate (fixedPolicy 5) cfgTiny eDefault sinZero 3 rngZero).getD
        default).energy_breakdown_mj, 0 ≤ p.2) ∧
    0 ≤ ((simulate (fixedPolicy 5) cfgTiny eDefault sinZero 3 rngZero).getD
        default).energy_total_mj ∧
    ((simulate (fixedPolicy 5) cfgTiny eDefault sinZero 3 rngZero).getD
        default).energy_breakdown_mj.map Prod.fst =
      ["sleep", "idle_awake", "sensing", "cpu", "tx"] ∧
    ((simulate (fixedPolicy 5) cfgTiny eDefault sinZero 3 rngZero).getD
        default).energy_total_mj =
      (((simulate (fixedPolicy 5) cfgTiny eDefault sinZero 3 rngZero).getD
        default).energy_breakdown_mj.map Prod.snd).sum :=
  C4_theorem _ _ _ _ _ _ _ (by norm_num [EnergyModel.Nonneg, eDefault])
    (by norm_num [cfgTiny]) (by decide)
    (opt_eq_some_getD _ _ (by norm_num [simulate, cfgTiny, eDefault]))


/-! ## Claim C6 -/

/-- The loop invariant behind C6: `sent` and `measured` grow in lockstep,
a set `last_measurement` always corresponds to some recorded measurement,
and every `sent[i] = true` is preceded by a measurement at some `j ≤ i`. -/
def Inv6 {σ : Type} (s : SimState σ) : Prop :=
  s.sent.length = s.measured.length ∧
  (s.lastMeasurement.isSome = true → ∃ j : ℕ, ∃ m : ℚ, s.measured[j]? = some (some m)) ∧
  (∀ i : ℕ, s.sent[i]? = some true → ∃ j : ℕ, j ≤ i ∧ ∃ m : ℚ, s.measured[j]? = some (some m))

theorem tick_Inv6 {σ : Type} (P : Policy σ) (cfg : NodeConfig) (E : EnergyModel)
    (sinF : ℚ → ℚ) (piQ : ℚ) (rng : ℤ → ℕ → ℚ) (s : SimState σ) (i : ℕ)
    (h : Inv6 s) : Inv6 (tick P cfg E sinF piQ rng s i) := by
  obtain ⟨hlen, hlm, hsent⟩ := h
  have hlm' : (tickLm P cfg sinF piQ rng s i).isSome = true →
      ∃ j : ℕ, j < s.measured.length + 1 ∧ ∃ m : ℚ,
        (s.measured ++ [tickMval P cfg sinF piQ rng s i])[j]? = some (some m) := by
    intro hs
    by_cases hsam : tickSampled P cfg s i = true
    · refine ⟨s.measured.length, by omega, ?_⟩
      simp only [List.getElem?_concat_length, tickMval, hsam, if_true]
      exact ⟨_, rfl⟩
    · unfold tickLm at hs
      rw [if_neg hsam] at hs
      obtain ⟨j, m, hj⟩ := hlm hs
      have hjlt : j < s.measured.length := (List.getElem?_eq_some.mp hj).1
      exact ⟨j, by omega, m, by rw [List.getElem?_append_left hjlt]; exact hj⟩
  refine ⟨?_, ?_, ?_⟩
  · simp [tick, hlen]
  · intro hs
    unfold tick at hs ⊢
    dsimp only at hs ⊢
    obtain ⟨j, _, m, hj⟩ := hlm' hs
    exact ⟨j, m, hj⟩
  · intro k hk
    unfold tick at hk ⊢
    dsimp only at hk ⊢
    rcases Nat.lt_trichotomy k s.sent.length with hlt | heq | hgt
    · rw [List.getElem?_append_left hlt] at hk
      obtain ⟨j, hji, m, hj⟩ := hsent k hk
      have hjlt : j < s.measured.length := (List.getElem?_eq_some.mp hj).1
      exact ⟨j, hji, m, by rw [List.getElem?_append_left hjlt]; exact hj⟩
    · subst heq
      rw [List.getElem?_concat_length] at hk
      have hd : tickDidTx P cfg sinF piQ rng s i = true := by
        exact Option.some_inj.mp hk
      have hsome : (tickLm P cfg sinF piQ rng s i).isSome = true := by
        simp only [tickDidTx, Bool.and_eq_true] at hd
        exact hd.2
      obtain ⟨j, hjlt, m, hj⟩ := hlm' hsome
      exact ⟨j, by omega, m, hj⟩
    · rw [List.getElem?_len_le (by simpa using Nat.succ_le_of_lt hgt)] at hk
      cases hk

theorem iterState_Inv6 {σ : Type} (P : Policy σ) (cfg : NodeConfig) (E : EnergyModel)
    (sinF : ℚ → ℚ) (piQ : ℚ) (rng : ℤ → ℕ → ℚ) (n : ℕ) :
    Inv6 (iterState P cfg E sinF piQ rng n) :=
  List.foldlRecOn _ _ _
    (by
      refine ⟨rfl, ?_, ?_⟩
      · intro h
        cases h
      · intro i hk
        simp [initState] at hk)
    (fun b hb a _ => tick_Inv6 P cfg E sinF piQ rng b a hb)

/-- C6: in every run of `simulate`, `sent[i] = true` implies a measurement
is present at some index `j ≤ i`; and `sent[i] = true` does not require
`measured[i]` itself to be present: a run of the one-shot policy (sample at
tick 0 only, transmit at tick 1 only) has `sent[1] = true` with
`measured[1] = none`. -/
theorem C6_theorem {σ : Type} (P : Policy σ) (cfg : NodeConfig) (E : EnergyModel)
    (sinF : ℚ → ℚ) (piQ : ℚ) (rng : ℤ → ℕ → ℚ) (r : SimResult)
    (hr : simulate P cfg E sinF piQ rng = some r) :
    (∀ i : ℕ, r.sent[i]? = some true → ∃ j : ℕ, j ≤ i ∧ ∃ m : ℚ, r.measured[j]? = some (some m)) ∧
    (simulate oneShotPolicy cfgTiny eDefault sinZero 3 rngZero).map
      (fun r2 => (r2.sent[1]?, r2.measured[1]?)) = some (some true, some none) := by
  constructor
  · by_cases h0 : cfg.dt_s = 0
    · rw [simulate, if_pos h0] at hr
      cases hr
    · rw [simulate, if_neg h0] at hr
      by_cases hg : E.bitrate_bps = 0 ∧
          0 < (iterState P cfg E sinF piQ rng
            (pyTrunc ((cfg.duration_s : ℚ) / cfg.dt_s) + 1).toNat).packetsSent
      · rw [if_pos hg] at hr
        cases hr
      · rw [if_neg hg] at hr
        have hr' := Option.some_inj.mp hr
        subst hr'
        exact (iterState_Inv6 P cfg E sinF piQ rng _).2.2
  · norm_num [simulate, cfgTiny, eDefault, iterState, initState, pyTrunc, tick, tickNow,
      tickOut, tickSampled, tickMval, tickLm, tickDidTx, oneShotPolicy,
      pyRound, ground_truth, List.range_succ, (by decide : (2:ℤ).toNat = 2)]


/-- Witness for C6 at a concrete input: in the two-tick fixed-policy run,
`sent[0] = true`, and the theorem yields a measurement at some `j ≤ 0`. -/
theorem C6_witness :
    ∃ j : ℕ, j ≤ 0 ∧ ∃ m : ℚ,
      (((simulate (fixedPolicy 5) cfgTiny eDefault sinZero 3 rngZero).getD
        default).measured)[j]? = some (some m) :=
  (C6_theorem (fixedPolicy 5) cfgTiny eDefault sinZero 3 rngZero _
    (opt_eq_some_getD _ _ (by norm_num [simulate, cfgTiny, eDefault]))).1 0
    (by norm_num [simulate, cfgTiny, eDefault, iterState, initState, pyTrunc, tick, tickNow,
      tickOut, tickSampled, tickMval, tickLm, tickDidTx, fixedPolicy, fixedStep,
      fixedMk, pyRound, ground_truth, List.range_succ,
      (by decide : (2:ℤ).toNat = 2)])

/-! ## Claim C10 -/

/-- The loop invariant behind C10: the running `last_measurement` equals
the most recent non-absent entry of the `measured` sequence built so far. -/
def Inv10 {σ : Type} (s : SimState σ) : Prop :=
  s.lastMeasurement = lastSome s.measured

theorem tick_Inv10 {σ : Type} (P : Policy σ) (cfg : NodeConfig) (E : EnergyModel)
    (sinF : ℚ → ℚ) (piQ : ℚ) (rng : ℤ → ℕ → ℚ) (s : SimState σ) (i : ℕ)
    (h : Inv10 s) : Inv10 (tick P cfg E sinF piQ rng s i) := by
  unfold Inv10 at h ⊢
  show tickLm P cfg sinF piQ rng s i =
    lastSome (s.measured ++ [tickMval P cfg sinF piQ rng s i])
  by_cases hsam : tickSampled P cfg s i = true
  · simp only [tickLm, tickMval, hsam, if_true]
    rw [lastSome_append_some]
  · simp only [Bool.not_eq_true] at hsam
    simp only [tickLm, tickMval, hsam, Bool.false_eq_true, if_false]
    rw [lastSome_append_none]
    exact h

theorem iterState_Inv10 {σ : Type} (P : Policy σ) (cfg : NodeConfig) (E : EnergyModel)
    (sinF : ℚ → ℚ) (piQ : ℚ) (rng : ℤ → ℕ → ℚ) (n : ℕ) :
    Inv10 (iterState P cfg E sinF piQ rng n) :=
  List.foldlRecOn _ _ _ rfl
    (fun b hb a _ => tick_Inv10 P cfg E sinF piQ rng b a hb)

theorem tick_measured_append {σ : Type} (P : Policy σ) (cfg : NodeConfig) (E : EnergyModel)
    (sinF : ℚ → ℚ) (piQ : ℚ) (rng : ℤ → ℕ → ℚ) (s : SimState σ) (i : ℕ) :
    (tick P cfg E sinF piQ rng s i).measured =
      s.measured ++ [tickMval P cfg sinF piQ rng s i] := rfl

theorem foldl_tick_measured_prefix {σ : Type} (P : Policy σ) (cfg : NodeConfig)
    (E : EnergyModel) (sinF : ℚ → ℚ) (piQ : ℚ) (rng : ℤ → ℕ → ℚ) :
    ∀ (l : List ℕ) (s : SimState σ), ∃ tl,
      (List.foldl (tick P cfg E sinF piQ rng) s l).measured = s.measured ++ tl := by
  intro l
  induction l with
  | nil => intro s; exact ⟨[], by simp⟩
  | cons a l ih =>
    intro s
    obtain ⟨tl, htl⟩ := ih (tick P cfg E sinF piQ rng s a)
    refine ⟨[tickMval P cfg sinF piQ rng s a] ++ tl, ?_⟩
    rw [List.foldl_cons, htl, tick_measured_append, List.append_assoc]

theorem iterState_measured_take {σ : Type} (P : Policy σ) (cfg : NodeConfig)
    (E : EnergyModel) (sinF : ℚ → ℚ) (piQ : ℚ) (rng : ℤ → ℕ → ℚ) (m n : ℕ)
    (h : m ≤ n) :
    (iterState P cfg E sinF piQ rng n).measured.take m =
      (iterState P cfg E sinF piQ rng m).measured := by
  obtain ⟨k, rfl⟩ := Nat.exists_eq_add_of_le h
  unfold iterState
  rw [List.range_add, List.foldl_append]
  obtain ⟨tl, htl⟩ := foldl_tick_measured_prefix P cfg E sinF piQ rng
    ((List.range k).map (fun x => m + x))
    (List.foldl (tick P cfg E sinF piQ rng) (initState P cfg sinF piQ) (List.range m))
  rw [htl]
  have hlen : (List.foldl (tick P cfg E sinF piQ rng) (initState P cfg sinF piQ)
      (List.range m)).measured.length = m := iterState_measured_length P cfg E sinF piQ rng m
  exact List.take_left' hlen

/-- C10: the `last_measurement` argument handed to `policy.step` at tick
index `i` of a run (namely `(iterState … i).lastMeasurement`, by definition
of `tickOut`/`tick`) equals the most recent non-absent entry of
`measured.take i`, i.e. the measurement of the most recent sampling tick
strictly before `i` (`none` if no earlier tick sampled): the policy never
observes the current tick's measurement. -/
theorem C10_theorem {σ : Type} (P : Policy σ) (cfg : NodeConfig) (E : EnergyModel)
    (sinF : ℚ → ℚ) (piQ : ℚ) (rng : ℤ → ℕ → ℚ) (r : SimResult) (i : ℕ)
    (hr : simulate P cfg E sinF piQ rng = some r) (hi : i ≤ r.measured.length) :
    stepArgAt P cfg E sinF piQ rng i = lastSome (r.measured.take i) := by
  by_cases h0 : cfg.dt_s = 0
  · rw [simulate, if_pos h0] at hr
    cases hr
  · rw [simulate, if_neg h0] at hr
    by_cases hg : E.bitrate_bps = 0 ∧
        0 < (iterState P cfg E sinF piQ rng
          (pyTrunc ((cfg.duration_s : ℚ) / cfg.dt_s) + 1).toNat).packetsSent
    · rw [if_pos hg] at hr
      cases hr
    · rw [if_neg hg] at hr
      have hr' := Option.some_inj.mp hr
      subst hr'
      have hi' : i ≤ (pyTrunc ((cfg.duration_s : ℚ) / cfg.dt_s) + 1).toNat := by
        simpa [iterState_measured_length] using hi
      show stepArgAt P cfg E sinF piQ rng i =
        lastSome ((iterState P cfg E sinF piQ rng
          (pyTrunc ((cfg.duration_s : ℚ) / cfg.dt_s) + 1).toNat).measured.take i)
      rw [iterState_measured_take P cfg E sinF piQ rng i _ hi']
      exact iterState_Inv10 P cfg E sinF piQ rng i

/-- Witness for C10 at a concrete input (`i = 1` in the two-tick
fixed-policy run). -/
theorem C10_witness :
    stepArgAt (fixedPolicy 5) cfgTiny eDefault sinZero 3 rngZero 1 =
      lastSome (((simulate (fixedPolicy 5) cfgTiny eDefault sinZero 3 rngZero).getD
        default).measured.take 1) :=
  C10_theorem _ _ _ _ _ _ _ 1 (opt_eq_some_getD _ _ (by norm_num [simulate, cfgTiny, eDefault]))
    (by norm_num [simulate, cfgTiny, eDefault, iterState_measured_length, pyTrunc,
      (by decide : ((1:ℤ) + 1).toNat = 2)])


/-! ## Claim C1 -/

theorem iterState_succ {σ : Type} (P : Policy σ) (cfg : NodeConfig) (E : EnergyModel)
    (sinF : ℚ → ℚ) (piQ : ℚ) (rng : ℤ → ℕ → ℚ) (n : ℕ) :
    iterState P cfg E sinF piQ rng (n + 1) =
      tick P cfg E sinF piQ rng (iterState P cfg E sinF piQ rng n) n := by
  unfold iterState
  rw [List.range_succ, List.foldl_append]
  rfl

theorem tickNow_dtOne (cfg : NodeConfig) (h : cfg.dt_s = 1) (i : ℕ) :
    tickNow cfg i = (i : ℤ) := by
  unfold tickNow
  rw [h, mul_one, pyRound_natCast]

theorem adaptiveStep_not_sampling (p : AdaptiveParams) (st : Option ℚ) (t : ℤ)
    (lm : Option ℚ) (ltx : Option ℤ) (h : ¬ (t % p.base_every_s = 0)) :
    adaptiveStep p st t lm ltx = (⟨true, false, false⟩, st) := by
  unfold adaptiveStep
  rw [decide_eq_false h]
  cases lm <;> rfl

theorem adaptiveStep_no_measurement (p : AdaptiveParams) (st : Option ℚ) (t : ℤ)
    (ltx : Option ℤ) (h : t % p.base_every_s = 0) :
    adaptiveStep p st t none ltx = (⟨true, true, false⟩, st) := by
  unfold adaptiveStep
  rw [decide_eq_true h]

theorem adaptiveStep_first_tx (p : AdaptiveParams) (t : ℤ) (m : ℚ) (ltx : Option ℤ)
    (h : t % p.base_every_s = 0) :
    adaptiveStep p none t (some m) ltx = (⟨true, true, true⟩, some m) := by
  unfold adaptiveStep
  rw [decide_eq_true h]
  rfl

theorem adaptive_tick_skip (b : ℤ) (th : ℚ) (ms : ℤ) (cfg : NodeConfig) (E : EnergyModel)
    (sinF : ℚ → ℚ) (piQ : ℚ) (rng : ℤ → ℕ → ℚ) (s : SimState (Option ℚ)) (i : ℕ)
    (hmod : ¬ (tickNow cfg i % (adaptiveMk b th ms).base_every_s = 0)) :
    (tick (adaptivePolicy b th ms) cfg E sinF piQ rng s i).ps = s.ps ∧
    (tick (adaptivePolicy b th ms) cfg E sinF piQ rng s i).lastMeasurement =
      s.lastMeasurement ∧
    (tick (adaptivePolicy b th ms) cfg E sinF piQ rng s i).lastTxS = s.lastTxS := by
  have hstep : tickOut (adaptivePolicy b th ms) cfg s i =
      (⟨true, false, false⟩, s.ps) := by
    unfold tickOut adaptivePolicy
    exact adaptiveStep_not_sampling _ _ _ _ _ hmod
  have hsam : tickSampled (adaptivePolicy b th ms) cfg s i = false := by
    unfold tickSampled
    rw [hstep]
    rfl
  have hlm : tickLm (adaptivePolicy b th ms) cfg sinF piQ rng s i = s.lastMeasurement := by
    unfold tickLm
    rw [hsam]
    rfl
  have hdtx : tickDidTx (adaptivePolicy b th ms) cfg sinF piQ rng s i = false := by
    unfold tickDidTx
    rw [hstep]
    rfl
  refine ⟨?_, ?_, ?_⟩ <;> simp [tick, hstep, hlm, hdtx]

theorem adaptive_warmup (b : ℤ) (th : ℚ) (ms : ℤ) (cfg : NodeConfig) (E : EnergyModel)
    (sinF : ℚ → ℚ) (piQ : ℚ) (rng : ℤ → ℕ → ℚ) (hb : 1 ≤ b) (hdt : cfg.dt_s = 1) :
    ∀ i : ℕ, 1 ≤ i → (i : ℤ) ≤ b →
      (iterState (adaptivePolicy b th ms) cfg E sinF piQ rng i).ps = none ∧
      (iterState (adaptivePolicy b th ms) cfg E sinF piQ rng i).lastMeasurement =
        some (ground_truth sinF piQ 0 cfg + cfg.noise_std * rng cfg.seed 0) ∧
      (iterState (adaptivePolicy b th ms) cfg E sinF piQ rng i).lastTxS = none := by
  intro i
  induction i with
  | zero =>
    intro h1 h2
    exact absurd h1 (by norm_num)
  | succ n ih =>
    intro h1 h2
    rw [iterState_succ]
    rcases Nat.eq_zero_or_pos n with hn0 | hnpos
    · subst hn0
      have hnow : tickNow cfg 0 = 0 := by
        rw [tickNow_dtOne cfg hdt 0]
        rfl
      have hmod : tickNow cfg 0 % (adaptiveMk b th ms).base_every_s = 0 := by
        rw [hnow]
        exact Int.zero_emod _
      have h0 : iterState (adaptivePolicy b th ms) cfg E sinF piQ rng 0 =
          initState (adaptivePolicy b th ms) cfg sinF piQ := by
        unfold iterState
        rw [List.range_zero]
        rfl
      have hstep : tickOut (adaptivePolicy b th ms) cfg
          (iterState (adaptivePolicy b th ms) cfg E sinF piQ rng 0) 0 =
          (⟨true, true, false⟩, none) := by
        rw [h0]
        show adaptiveStep (adaptiveMk b th ms) none (tickNow cfg 0) none none = _
        exact adaptiveStep_no_measurement _ _ _ _ hmod
      have hsam : tickSampled (adaptivePolicy b th ms) cfg
          (iterState (adaptivePolicy b th ms) cfg E sinF piQ rng 0) 0 = true := by
        unfold tickSampled
        rw [hstep]
        rfl
      have hmv : tickMval (adaptivePolicy b th ms) cfg sinF piQ rng
          (iterState (adaptivePolicy b th ms) cfg E sinF piQ rng 0) 0 =
          some (ground_truth sinF piQ 0 cfg + cfg.noise_std * rng cfg.seed 0) := by
        unfold tickMval
        rw [hsam, if_pos rfl, hnow, h0]
        rfl
      have hlm : tickLm (adaptivePolicy b th ms) cfg sinF piQ rng
          (iterState (adaptivePolicy b th ms) cfg E sinF piQ rng 0) 0 =
          some (ground_truth sinF piQ 0 cfg + cfg.noise_std * rng cfg.seed 0) := by
        unfold tickLm
        rw [hsam, if_pos rfl, hmv]
      have hdtx : tickDidTx (adaptivePolicy b th ms) cfg sinF piQ rng
          (iterState (adaptivePolicy b th ms) cfg E sinF piQ rng 0) 0 = false := by
        unfold tickDidTx
        rw [hstep]
        rfl
      refine ⟨?_, ?_, ?_⟩
      · show (tickOut (adaptivePolicy b th ms) cfg
          (iterState (adaptivePolicy b th ms) cfg E sinF piQ rng 0) 0).2 = none
        simp [hstep]
      · exact hlm
      · show (if tickDidTx (adaptivePolicy b th ms) cfg sinF piQ rng
            (iterState (adaptivePolicy b th ms) cfg E sinF piQ rng 0) 0 = true then
            some (tickNow cfg 0)
          else (iterState (adaptivePolicy b th ms) cfg E sinF piQ rng 0).lastTxS) = none
        rw [hdtx, h0]
        rfl
    · have hble : (n : ℤ) < b := by
        push_cast at h2
        omega
      have hmod : ¬ (tickNow cfg n % (adaptiveMk b th ms).base_every_s = 0) := by
        rw [tickNow_dtOne cfg hdt n]
        unfold adaptiveMk
        dsimp only
        rw [max_eq_right hb]
        rw [Int.emod_eq_of_lt (by exact_mod_cast Nat.zero_le n) hble]
        exact_mod_cast Nat.pos_iff_ne_zero.mp hnpos
      obtain ⟨ihps, ihlm, ihltx⟩ := ih hnpos (by omega)
      obtain ⟨hps, hlm, hltx⟩ :=
        adaptive_tick_skip b th ms cfg E sinF piQ rng
          (iterState (adaptivePolicy b th ms) cfg E sinF piQ rng n) n hmod
      exact ⟨by rw [hps, ihps], by rw [hlm, ihlm], by rw [hltx, ihltx]⟩



/-- C1 (amended): in a run of `simulate` with a reset
`AdaptiveThresholdPolicy` (base period `b ≥ 1`, `dt_s = 1`, duration
covering tick `b`), the first sampling tick (tick 0) has `take_sample =
true` but `transmit = false`, because the policy is consulted before any
measurement exists; the second sampling tick (tick `b`) is the first
sampling tick with a prior measurement and its output has
`transmit = true`, because no prior transmission has occurred. -/
theorem C1_theorem (b : ℤ) (th : ℚ) (ms : ℤ) (cfg : NodeConfig) (E : EnergyModel)
    (sinF : ℚ → ℚ) (piQ : ℚ) (rng : ℤ → ℕ → ℚ)
    (hb : 1 ≤ b) (hdt : cfg.dt_s = 1) (hdur : b ≤ cfg.duration_s) :
    ((stepOutputAt (adaptivePolicy b th ms) cfg E sinF piQ rng 0).take_sample = true ∧
     (stepOutputAt (adaptivePolicy b th ms) cfg E sinF piQ rng 0).transmit = false) ∧
    ((stepOutputAt (adaptivePolicy b th ms) cfg E sinF piQ rng
        b.toNat).take_sample = true ∧
     (stepOutputAt (adaptivePolicy b th ms) cfg E sinF piQ rng
        b.toNat).transmit = true) := by
  have h0 : iterState (adaptivePolicy b th ms) cfg E sinF piQ rng 0 =
      initState (adaptivePolicy b th ms) cfg sinF piQ := by
    unfold iterState
    rw [List.range_zero]
    rfl
  constructor
  · have hout : stepOutputAt (adaptivePolicy b th ms) cfg E sinF piQ rng 0 =
        ⟨true, true, false⟩ := by
      unfold stepOutputAt
      have hnow0 : pyRound (((0 : ℕ) : ℚ) * cfg.dt_s) = 0 := by
        rw [Nat.cast_zero, zero_mul]
        simpa using pyRound_intCast 0
      rw [h0, hnow0]
      show (adaptiveStep (adaptiveMk b th ms) none 0 none none).1 = _
      rw [adaptiveStep_no_measurement _ _ _ _ (Int.zero_emod _)]
    rw [hout]
    exact ⟨rfl, rfl⟩
  · have hbn1 : 1 ≤ b.toNat := by omega
    obtain ⟨hps, hlm, hltx⟩ :=
      adaptive_warmup b th ms cfg E sinF piQ rng hb hdt b.toNat hbn1 (by omega)
    have hnowb : pyRound (((b.toNat : ℕ) : ℚ) * cfg.dt_s) = b := by
      rw [hdt, mul_one, pyRound_natCast, Int.toNat_of_nonneg (by omega)]
    have hmodb : b % (adaptiveMk b th ms).base_every_s = 0 := by
      unfold adaptiveMk
      dsimp only
      rw [max_eq_right hb]
      exact Int.emod_self
    have hout : stepOutputAt (adaptivePolicy b th ms) cfg E sinF piQ rng b.toNat =
        ⟨true, true, true⟩ := by
      unfold stepOutputAt
      rw [hps, hlm, hltx, hnowb]
      show (adaptiveStep (adaptiveMk b th ms) none b
        (some (ground_truth sinF piQ 0 cfg + cfg.noise_std * rng cfg.seed 0)) none).1 = _
      rw [adaptiveStep_first_tx _ _ _ _ hmodb]
    rw [hout]
    exact ⟨rfl, rfl⟩

/-- Counterexample to C1 as stated: in the concrete run of spec section 8
(adaptive policy, `base_every_s = 2`, threshold 1000, `max_silence_s = 10`,
duration 30, `dt = 1`), tick 0 is the first sampling tick
(`take_sample = true`) yet the step output has `transmit = false`. -/
theorem C1_counterexample :
    (stepOutputAt (adaptivePolicy 2 1000 10) cfgC5 eDefault sinZero 3
      rngZero 0).take_sample = true ∧
    (stepOutputAt (adaptivePolicy 2 1000 10) cfgC5 eDefault sinZero 3
      rngZero 0).transmit = false := by
  constructor <;>
    norm_num [stepOutputAt, iterState, initState, adaptivePolicy, adaptiveStep,
      adaptiveMk, cfgC5, pyRound]

/-- Witness for C1's amended statement at the concrete parameters of the
spec's adaptive scenario. -/
theorem C1_witness :
    ((stepOutputAt (adaptivePolicy 2 1000 10) cfgC5 eDefault sinZero 3
        rngZero 0).take_sample = true ∧
     (stepOutputAt (adaptivePolicy 2 1000 10) cfgC5 eDefault sinZero 3
        rngZero 0).transmit = false) ∧
    ((stepOutputAt (adaptivePolicy 2 1000 10) cfgC5 eDefault sinZero 3
        rngZero (2 : ℤ).toNat).take_sample = true ∧
     (stepOutputAt (adaptivePolicy 2 1000 10) cfgC5 eDefault sinZero 3
        rngZero (2 : ℤ).toNat).transmit = true) :=
  C1_theorem 2 1000 10 cfgC5 eDefault sinZero 3 rngZero (by decide) rfl (by decide)


/-! ## Claim C5 -/

set_option maxHeartbeats 4000000 in
set_option maxRecDepth 4000 in
/-- Counterexample to C5 as stated: in the spec's adaptive scenario
(`base_every_s = 2`, threshold 1000, `max_silence_s = 10`, duration 30,
`dt = 1`), with a noise/sine instantiation under which every measurement is
exactly 20 (so no measurement ever differs from the last transmitted value
by 1000 or more, satisfying the claim's hypothesis), the run has
`packets_sent = 3`, not 4. -/
theorem C5_counterexample :
    (simulate (adaptivePolicy 2 1000 10) cfgC5 eDefault sinZero 3 rngZero).map
      (fun r => (r.measured, r.packets_sent)) =
    some
      ([some 20, none, some 20, none, some 20, none, some 20, none, some 20, none,
        some 20, none, some 20, none, some 20, none, some 20, none, some 20, none,
        some 20, none, some 20, none, some 20, none, some 20, none, some 20, none,
        some 20], 3) := by
  norm_num [simulate, iterState, tick, initState, adaptivePolicy, adaptiveStep,
    adaptiveMk, cfgC5, eDefault, sinZero, rngZero, pyTrunc, pyRound,
    ground_truth, tickNow, tickOut, tickSampled, tickMval, tickLm, tickDidTx,
    EnergyModel.e_sleep, EnergyModel.e_idle_awake, EnergyModel.e_sense,
    EnergyModel.e_cpu, EnergyModel.e_tx, List.range_succ,
    (by decide : (31:ℤ).toNat = 31)]

set_option maxHeartbeats 4000000 in
set_option maxRecDepth 4000 in

theorem adaptiveStep_hold (p : AdaptiveParams) (v m : ℚ) (t ls : ℤ)
    (h : t % p.base_every_s = 0) (hth : ¬(p.threshold ≤ |m - v|))
    (hka : ¬((p.max_silence_s : ℚ) ≤ ((t - ls : ℤ) : ℚ))) :
    adaptiveStep p (some v) t (some m) (some ls) = (⟨true, true, false⟩, some v) := by
  unfold adaptiveStep
  simp only [decide_eq_true h]
  simp only [decide_eq_false hth]
  simp only [decide_eq_false hka]
  simp

theorem adaptiveStep_keepalive (p : AdaptiveParams) (v m : ℚ) (t ls : ℤ)
    (h : t % p.base_every_s = 0) (hth : ¬(p.threshold ≤ |m - v|))
    (hka : (p.max_silence_s : ℚ) ≤ ((t - ls : ℤ) : ℚ)) :
    adaptiveStep p (some v) t (some m) (some ls) = (⟨true, true, true⟩, some m) := by
  unfold adaptiveStep
  simp only [decide_eq_true h]
  simp only [decide_eq_false hth]
  simp only [decide_eq_true hka]
  simp



theorem c5_tick_sample (E : EnergyModel) (sinF : ℚ → ℚ) (piQ : ℚ) (rng : ℤ → ℕ → ℚ)
    (s : SimState (Option ℚ)) (i : ℕ) (tx : Bool) (q : Option ℚ)
    (hstep : tickOut (adaptivePolicy 2 1000 10) cfgC5 s i = (⟨true, true, tx⟩, q)) :
    (tick (adaptivePolicy 2 1000 10) cfgC5 E sinF piQ rng s i).ps = q ∧
    (tick (adaptivePolicy 2 1000 10) cfgC5 E sinF piQ rng s i).lastMeasurement =
      some (ground_truth sinF piQ (i : ℤ) cfgC5 +
        cfgC5.noise_std * rng cfgC5.seed s.samplesTaken) ∧
    (tick (adaptivePolicy 2 1000 10) cfgC5 E sinF piQ rng s i).lastTxS =
      (if tx then some (i : ℤ) else s.lastTxS) ∧
    (tick (adaptivePolicy 2 1000 10) cfgC5 E sinF piQ rng s i).samplesTaken =
      s.samplesTaken + 1 ∧
    (tick (adaptivePolicy 2 1000 10) cfgC5 E sinF piQ rng s i).packetsSent =
      (if tx then s.packetsSent + 1 else s.packetsSent) ∧
    (tick (adaptivePolicy 2 1000 10) cfgC5 E sinF piQ rng s i).sent = s.sent ++ [tx] := by
  have htn : tickNow cfgC5 i = (i : ℤ) := tickNow_dtOne cfgC5 rfl i
  have hsam : tickSampled (adaptivePolicy 2 1000 10) cfgC5 s i = true := by
    unfold tickSampled
    rw [hstep]
    rfl
  have hmv : tickMval (adaptivePolicy 2 1000 10) cfgC5 sinF piQ rng s i =
      some (ground_truth sinF piQ (i : ℤ) cfgC5 +
        cfgC5.noise_std * rng cfgC5.seed s.samplesTaken) := by
    unfold tickMval
    rw [hsam, if_pos rfl, htn]
  have hlm : tickLm (adaptivePolicy 2 1000 10) cfgC5 sinF piQ rng s i =
      some (ground_truth sinF piQ (i : ℤ) cfgC5 +
        cfgC5.noise_std * rng cfgC5.seed s.samplesTaken) := by
    unfold tickLm
    rw [hsam, if_pos rfl, hmv]
  have hdtx : tickDidTx (adaptivePolicy 2 1000 10) cfgC5 sinF piQ rng s i = tx := by
    unfold tickDidTx
    rw [hstep, hlm]
    cases tx <;> rfl
  cases tx <;>
    (refine ⟨?_, ?_, ?_, ?_, ?_, ?_⟩ <;>
      simp [tick, hstep, hsam, hlm, hdtx, htn])

theorem c5_tick_skip (E : EnergyModel) (sinF : ℚ → ℚ) (piQ : ℚ) (rng : ℤ → ℕ → ℚ)
    (s : SimState (Option ℚ)) (i : ℕ)
    (hmod : ¬ ((i : ℤ) % 2 = 0)) :
    (tick (adaptivePolicy 2 1000 10) cfgC5 E sinF piQ rng s i).ps = s.ps ∧
    (tick (adaptivePolicy 2 1000 10) cfgC5 E sinF piQ rng s i).lastMeasurement =
      s.lastMeasurement ∧
    (tick (adaptivePolicy 2 1000 10) cfgC5 E sinF piQ rng s i).lastTxS = s.lastTxS ∧
    (tick (adaptivePolicy 2 1000 10) cfgC5 E sinF piQ rng s i).samplesTaken =
      s.samplesTaken ∧
    (tick (adaptivePolicy 2 1000 10) cfgC5 E sinF piQ rng s i).packetsSent =
      s.packetsSent ∧
    (tick (adaptivePolicy 2 1000 10) cfgC5 E sinF piQ rng s i).sent =
      s.sent ++ [false] := by
  have htn : tickNow cfgC5 i = (i : ℤ) := tickNow_dtOne cfgC5 rfl i
  have hmod' : ¬ (tickNow cfgC5 i % (adaptiveMk 2 1000 10).base_every_s = 0) := by
    rw [htn]
    exact hmod
  have hstep : tickOut (adaptivePolicy 2 1000 10) cfgC5 s i =
      (⟨true, false, false⟩, s.ps) := by
    unfold tickOut adaptivePolicy
    exact adaptiveStep_not_sampling _ _ _ _ _ hmod'
  have hsam : tickSampled (adaptivePolicy 2 1000 10) cfgC5 s i = false := by
    unfold tickSampled
    rw [hstep]
    rfl
  have hlm : tickLm (adaptivePolicy 2 1000 10) cfgC5 sinF piQ rng s i =
      s.lastMeasurement := by
    unfold tickLm
    rw [hsam]
    rfl
  have hdtx : tickDidTx (adaptivePolicy 2 1000 10) cfgC5 sinF piQ rng s i = false := by
    unfold tickDidTx
    rw [hstep]
    rfl
  refine ⟨?_, ?_, ?_, ?_, ?_, ?_⟩ <;>
    simp [tick, hstep, hsam, hlm, hdtx, htn]

theorem c5_no_threshold (m v : ℚ) (hm : |m - 20| ≤ 24) (hv : |v - 20| ≤ 24) :
    ¬((adaptiveMk 2 1000 10).threshold ≤ |m - v|) := by
  have hth : (adaptiveMk 2 1000 10).threshold = 1000 := rfl
  rw [hth]
  intro hc
  have h1 : |m - v| ≤ |m - 20| + |20 - v| := abs_sub_le m 20 v
  rw [abs_sub_comm 20 v] at h1
  linarith

theorem c5_meas_bound (sinF : ℚ → ℚ) (piQ : ℚ) (rng : ℤ → ℕ → ℚ)
    (hsin : ∀ q, |sinF q| ≤ 1) (hrng : ∀ k, |rng cfgC5.seed k| ≤ 100)
    (t : ℤ) (k : ℕ) :
    |ground_truth sinF piQ t cfgC5 + cfgC5.noise_std * rng cfgC5.seed k - 20| ≤ 24 := by
  have key : ground_truth sinF piQ t cfgC5 + cfgC5.noise_std * rng cfgC5.seed k - 20 =
      3 * sinF (2 * piQ / max 1 (120 : ℚ) * t) +
      1/4 * sinF (2 * piQ / max 1 (120 : ℚ) * (33/100) * t) +
      1/5 * rng 42 k := by
    simp only [ground_truth, cfgC5]
    ring
  rw [key]
  have h1 := hsin (2 * piQ / max 1 (120 : ℚ) * t)
  have h2 := hsin (2 * piQ / max 1 (120 : ℚ) * (33/100) * t)
  have h3 := hrng k
  have hs : cfgC5.seed = 42 := rfl
  rw [hs] at h3
  rw [abs_le] at h1 h2 h3 ⊢
  constructor <;> linarith



theorem c5_step_no_meas (st : Option ℚ) (t : ℤ) (ltx : Option ℤ) (hmod : t % 2 = 0) :
    adaptiveStep (adaptiveMk 2 1000 10) st t none ltx = (⟨true, true, false⟩, st) := by
  apply adaptiveStep_no_measurement
  have hb : (adaptiveMk 2 1000 10).base_every_s = 2 := by decide
  rw [hb]
  exact hmod

theorem c5_step_first (t : ℤ) (m : ℚ) (ltx : Option ℤ) (hmod : t % 2 = 0) :
    adaptiveStep (adaptiveMk 2 1000 10) none t (some m) ltx =
      (⟨true, true, true⟩, some m) := by
  apply adaptiveStep_first_tx
  have hb : (adaptiveMk 2 1000 10).base_every_s = 2 := by decide
  rw [hb]
  exact hmod

theorem c5_step_hold (v m : ℚ) (t ls : ℤ) (hmod : t % 2 = 0)
    (hm : |m - 20| ≤ 24) (hv : |v - 20| ≤ 24) (hka : t - ls < 10) :
    adaptiveStep (adaptiveMk 2 1000 10) (some v) t (some m) (some ls) =
      (⟨true, true, false⟩, some v) := by
  have hb : (adaptiveMk 2 1000 10).base_every_s = 2 := by decide
  have hms : (adaptiveMk 2 1000 10).max_silence_s = 10 := by decide
  apply adaptiveStep_hold
  · rw [hb]
    exact hmod
  · exact c5_no_threshold m v hm hv
  · rw [hms]
    simp only [Int.cast_le]
    omega

theorem c5_step_keepalive (v m : ℚ) (t ls : ℤ) (hmod : t % 2 = 0)
    (hm : |m - 20| ≤ 24) (hv : |v - 20| ≤ 24) (hka : 10 ≤ t - ls) :
    adaptiveStep (adaptiveMk 2 1000 10) (some v) t (some m) (some ls) =
      (⟨true, true, true⟩, some m) := by
  have hb : (adaptiveMk 2 1000 10).base_every_s = 2 := by decide
  have hms : (adaptiveMk 2 1000 10).max_silence_s = 10 := by decide
  apply adaptiveStep_keepalive
  · rw [hb]
    exact hmod
  · exact c5_no_threshold m v hm hv
  · rw [hms]
    simp only [Int.cast_le]
    omega

theorem simulate_map_stats {σ : Type} (P : Policy σ) (cfg : NodeConfig) (E : EnergyModel)
    (sinF : ℚ → ℚ) (piQ : ℚ) (rng : ℤ → ℕ → ℚ) (h0 : ¬ cfg.dt_s = 0)
    (hg : ¬(E.bitrate_bps = 0 ∧
      0 < (iterState P cfg E sinF piQ rng
        (pyTrunc ((cfg.duration_s : ℚ) / cfg.dt_s) + 1).toNat).packetsSent)) :
    (simulate P cfg E sinF piQ rng).map
      (fun r => (r.samples_taken, r.packets_sent, r.sent)) =
    some
      ((iterState P cfg E sinF piQ rng
          (pyTrunc ((cfg.duration_s : ℚ) / cfg.dt_s) + 1).toNat).samplesTaken,
       (iterState P cfg E sinF piQ rng
          (pyTrunc ((cfg.duration_s : ℚ) / cfg.dt_s) + 1).toNat).packetsSent,
       (iterState P cfg E sinF piQ rng
          (pyTrunc ((cfg.duration_s : ℚ) / cfg.dt_s) + 1).toNat).sent) := by
  unfold simulate
  rw [if_neg h0, if_neg hg]
  rfl

/-- C5 (amended): for every energy model under which the run completes
(`bitrate_bps ≠ 0`; this run transmits, so with `bitrate_bps = 0` the
source raises in `e_tx` and returns nothing, cf. C2), every sine model
bounded by 1 and every noise stream whose gauss draws are bounded by 100
(under which no two measurements can differ by 20.5, let alone 1000, so
the claim's quietness hypothesis holds), the run of the spec's adaptive
scenario (`base_every_s = 2`, threshold 1000, `max_silence_s = 10`,
duration 30, `dt = 1`) has `samples_taken = 16` (ticks 0,2,…,30) and
`packets_sent = 3`, with `sent[i] = true` exactly at ticks 2, 12 and 22:
the first transmission happens at tick 2 (the first sampling tick with a
prior measurement), and the keep-alive rule then fires 10 seconds after
each transmission, at ticks 12 and 22. -/
theorem C5_theorem (E : EnergyModel) (sinF : ℚ → ℚ) (piQ : ℚ) (rng : ℤ → ℕ → ℚ)
    (hE : E.bitrate_bps ≠ 0)
    (hsin : ∀ q, |sinF q| ≤ 1) (hrng : ∀ k, |rng cfgC5.seed k| ≤ 100) :
    (simulate (adaptivePolicy 2 1000 10) cfgC5 E sinF piQ rng).map
      (fun r => (r.samples_taken, r.packets_sent, r.sent)) =
    some (16, 3,
      [false, false, true, false, false, false, false, false, false, false,
       false, false, true, false, false, false, false, false, false, false,
       false, false, true, false, false, false, false, false, false, false,
       false]) := by
  have st0 : (iterState (adaptivePolicy 2 1000 10) cfgC5 E sinF piQ rng 0).ps = none ∧
      (iterState (adaptivePolicy 2 1000 10) cfgC5 E sinF piQ rng 0).lastMeasurement = none ∧
      (iterState (adaptivePolicy 2 1000 10) cfgC5 E sinF piQ rng 0).lastTxS = none ∧
      (iterState (adaptivePolicy 2 1000 10) cfgC5 E sinF piQ rng 0).samplesTaken = 0 ∧
      (iterState (adaptivePolicy 2 1000 10) cfgC5 E sinF piQ rng 0).packetsSent = 0 ∧
      (iterState (adaptivePolicy 2 1000 10) cfgC5 E sinF piQ rng 0).sent = ([] : List Bool) := by
    have h0 : (iterState (adaptivePolicy 2 1000 10) cfgC5 E sinF piQ rng 0) = initState (adaptivePolicy 2 1000 10) cfgC5 sinF piQ := by
      unfold iterState
      rw [List.range_zero]
      rfl
    rw [h0]
    exact ⟨rfl, rfl, rfl, rfl, rfl, rfl⟩
  have st1 : (iterState (adaptivePolicy 2 1000 10) cfgC5 E sinF piQ rng 1).ps = none ∧
      (iterState (adaptivePolicy 2 1000 10) cfgC5 E sinF piQ rng 1).lastMeasurement = some (ground_truth sinF piQ ((0 : ℕ) : ℤ) cfgC5 + cfgC5.noise_std * rng cfgC5.seed 0) ∧
      (iterState (adaptivePolicy 2 1000 10) cfgC5 E sinF piQ rng 1).lastTxS = none ∧
      (iterState (adaptivePolicy 2 1000 10) cfgC5 E sinF piQ rng 1).samplesTaken = 1 ∧
      (iterState (adaptivePolicy 2 1000 10) cfgC5 E sinF piQ rng 1).packetsSent = 0 ∧
      (iterState (adaptivePolicy 2 1000 10) cfgC5 E sinF piQ rng 1).sent = [false] := by
    have he : (iterState (adaptivePolicy 2 1000 10) cfgC5 E sinF piQ rng 1) =
        tick (adaptivePolicy 2 1000 10) cfgC5 E sinF piQ rng (iterState (adaptivePolicy 2 1000 10) cfgC5 E sinF piQ rng 0) 0 :=
      iterState_succ (adaptivePolicy 2 1000 10) cfgC5 E sinF piQ rng 0
    obtain ⟨hp0, hl0, hx0, hk0, hq0, hn0⟩ := st0
    have hstep : tickOut (adaptivePolicy 2 1000 10) cfgC5 (iterState (adaptivePolicy 2 1000 10) cfgC5 E sinF piQ rng 0) 0 =
        (⟨true, true, false⟩, none) := by
      unfold tickOut
      rw [hp0, hl0, hx0, tickNow_dtOne cfgC5 rfl 0]
      exact c5_step_no_meas none ((0 : ℕ) : ℤ) none (by decide)
    obtain ⟨hp, hl, hx, hk, hq, hn⟩ := c5_tick_sample E sinF piQ rng (iterState (adaptivePolicy 2 1000 10) cfgC5 E sinF piQ rng 0) 0 false (none) hstep
    rw [he]
    refine ⟨?_, ?_, ?_, ?_, ?_, ?_⟩ <;>
      simp [hp, hl, hx, hk, hq, hn, hp0, hl0, hx0, hk0, hq0, hn0]
  have st2 : (iterState (adaptivePolicy 2 1000 10) cfgC5 E sinF piQ rng 2).ps = none ∧
      (iterState (adaptivePolicy 2 1000 10) cfgC5 E sinF piQ rng 2).lastMeasurement = some (ground_truth sinF piQ ((0 : ℕ) : ℤ) cfgC5 + cfgC5.noise_std * rng cfgC5.seed 0) ∧
      (iterState (adaptivePolicy 2 1000 10) cfgC5 E sinF piQ rng 2).lastTxS = none ∧
      (iterState (adaptivePolicy 2 1000 10) cfgC5 E sinF piQ rng 2).samplesTaken = 1 ∧
      (iterState (adaptivePolicy 2 1000 10) cfgC5 E sinF piQ rng 2).packetsSent = 0 ∧
      (iterState (adaptivePolicy 2 1000 10) cfgC5 E sinF piQ rng 2).sent = [false, false] := by
    have he : (iterState (adaptivePolicy 2 1000 10) cfgC5 E sinF piQ rng 2) =
        tick (adaptivePolicy 2 1000 10) cfgC5 E sinF piQ rng (iterState (adaptivePolicy 2 1000 10) cfgC5 E sinF piQ rng 1) 1 :=
      iterState_succ (adaptivePolicy 2 1000 10) cfgC5 E sinF piQ rng 1
    obtain ⟨hp0, hl0, hx0, hk0, hq0, hn0⟩ := st1
    obtain ⟨hp, hl, hx, hk, hq, hn⟩ := c5_tick_skip E sinF piQ rng (iterState (adaptivePolicy 2 1000 10) cfgC5 E sinF piQ rng 1) 1 (by decide)
    rw [he]
    refine ⟨?_, ?_, ?_, ?_, ?_, ?_⟩ <;>
      simp [hp, hl, hx, hk, hq, hn, hp0, hl0, hx0, hk0, hq0, hn0]
  have st3 : (iterState (adaptivePolicy 2 1000 10) cfgC5 E sinF piQ rng 3).ps = some (ground_truth sinF piQ ((0 : ℕ) : ℤ) cfgC5 + cfgC5.noise_std * rng cfgC5.seed 0) ∧
      (iterState (adaptivePolicy 2 1000 10) cfgC5 E sinF piQ rng 3).lastMeasurement = some (ground_truth sinF piQ ((2 : ℕ) : ℤ) cfgC5 + cfgC5.noise_std * rng cfgC5.seed 1) ∧
      (iterState (adaptivePolicy 2 1000 10) cfgC5 E sinF piQ rng 3).lastTxS = some ((2 : ℕ) : ℤ) ∧
      (iterState (adaptivePolicy 2 1000 10) cfgC5 E sinF piQ rng 3).samplesTaken = 2 ∧
      (iterState (adaptivePolicy 2 1000 10) cfgC5 E sinF piQ rng 3).packetsSent = 1 ∧
      (iterState (adaptivePolicy 2 1000 10) cfgC5 E sinF piQ rng 3).sent = [false, false, true] := by
    have he : (iterState (adaptivePolicy 2 1000 10) cfgC5 E sinF piQ rng 3) =
        tick (adaptivePolicy 2 1000 10) cfgC5 E sinF piQ rng (iterState (adaptivePolicy 2 1000 10) cfgC5 E sinF piQ rng 2) 2 :=
      iterState_succ (adaptivePolicy 2 1000 10) cfgC5 E sinF piQ rng 2
    obtain ⟨hp0, hl0, hx0, hk0, hq0, hn0⟩ := st2
    have hstep : tickOut (adaptivePolicy 2 1000 10) cfgC5 (iterState (adaptivePolicy 2 1000 10) cfgC5 E sinF piQ rng 2) 2 =
        (⟨true, true, true⟩, some (ground_truth sinF piQ ((0 : ℕ) : ℤ) cfgC5 + cfgC5.noise_std * rng cfgC5.seed 0)) := by
      unfold tickOut
      rw [hp0, hl0, hx0, tickNow_dtOne cfgC5 rfl 2]
      exact c5_step_first ((2 : ℕ) : ℤ) (ground_truth sinF piQ ((0 : ℕ) : ℤ) cfgC5 + cfgC5.noise_std * rng cfgC5.seed 0) none (by decide)
    obtain ⟨hp, hl, hx, hk, hq, hn⟩ := c5_tick_sample E sinF piQ rng (iterState (adaptivePolicy 2 1000 10) cfgC5 E sinF piQ rng 2) 2 true (some (ground_truth sinF piQ ((0 : ℕ) : ℤ) cfgC5 + cfgC5.noise_std * rng cfgC5.seed 0)) hstep
    rw [he]
    refine ⟨?_, ?_, ?_, ?_, ?_, ?_⟩ <;>
      simp [hp, hl, hx, hk, hq, hn, hp0, hl0, hx0, hk0, hq0, hn0]
  have st4 : (iterState (adaptivePolicy 2 1000 10) cfgC5 E sinF piQ rng 4).ps = some (ground_truth sinF piQ ((0 : ℕ) : ℤ) cfgC5 + cfgC5.noise_std * rng cfgC5.seed 0) ∧
      (iterState (adaptivePolicy 2 1000 10) cfgC5 E sinF piQ rng 4).lastMeasurement = some (ground_truth sinF piQ ((2 : ℕ) : ℤ) cfgC5 + cfgC5.noise_std * rng cfgC5.seed 1) ∧
      (iterState (adaptivePolicy 2 1000 10) cfgC5 E sinF piQ rng 4).lastTxS = some ((2 : ℕ) : ℤ) ∧
      (iterState (adaptivePolicy 2 1000 10) cfgC5 E sinF piQ rng 4).samplesTaken = 2 ∧
      (iterState (adaptivePolicy 2 1000 10) cfgC5 E sinF piQ rng 4).packetsSent = 1 ∧
      (iterState (adaptivePolicy 2 1000 10) cfgC5 E sinF piQ rng 4).sent = [false, false, true, false] := by
    have he : (iterState (adaptivePolicy 2 1000 10) cfgC5 E sinF piQ rng 4) =
        tick (adaptivePolicy 2 1000 10) cfgC5 E sinF piQ rng (iterState (adaptivePolicy 2 1000 10) cfgC5 E sinF piQ rng 3) 3 :=
      iterState_succ (adaptivePolicy 2 1000 10) cfgC5 E sinF piQ rng 3
    obtain ⟨hp0, hl0, hx0, hk0, hq0, hn0⟩ := st3
    obtain ⟨hp, hl, hx, hk, hq, hn⟩ := c5_tick_skip E sinF piQ rng (iterState (adaptivePolicy 2 1000 10) cfgC5 E sinF piQ rng 3) 3 (by decide)
    rw [he]
    refine ⟨?_, ?_, ?_, ?_, ?_, ?_⟩ <;>
      simp [hp, hl, hx, hk, hq, hn, hp0, hl0, hx0, hk0, hq0, hn0]
  have st5 : (iterState (adaptivePolicy 2 1000 10) cfgC5 E sinF piQ rng 5).ps = some (ground_truth sinF piQ ((0 : ℕ) : ℤ) cfgC5 + cfgC5.noise_std * rng cfgC5.seed 0) ∧
      (iterState (adaptivePolicy 2 1000 10) cfgC5 E sinF piQ rng 5).lastMeasurement = some (ground_truth sinF piQ ((4 : ℕ) : ℤ) cfgC5 + cfgC5.noise_std * rng cfgC5.seed 2) ∧
      (iterState (adaptivePolicy 2 1000 10) cfgC5 E sinF piQ rng 5).lastTxS = some ((2 : ℕ) : ℤ) ∧
      (iterState (adaptivePolicy 2 1000 10) cfgC5 E sinF piQ rng 5).samplesTaken = 3 ∧
      (iterState (adaptivePolicy 2 1000 10) cfgC5 E sinF piQ rng 5).packetsSent = 1 ∧
      (iterState (adaptivePolicy 2 1000 10) cfgC5 E sinF piQ rng 5).sent = [false, false, true, false, false] := by
    have he : (iterState (adaptivePolicy 2 1000 10) cfgC5 E sinF piQ rng 5) =
        tick (adaptivePolicy 2 1000 10) cfgC5 E sinF piQ rng (iterState (adaptivePolicy 2 1000 10) cfgC5 E sinF piQ rng 4) 4 :=
      iterState_succ (adaptivePolicy 2 1000 10) cfgC5 E sinF piQ rng 4
    obtain ⟨hp0, hl0, hx0, hk0, hq0, hn0⟩ := st4
    have hstep : tickOut (adaptivePolicy 2 1000 10) cfgC5 (iterState (adaptivePolicy 2 1000 10) cfgC5 E sinF piQ rng 4) 4 =
        (⟨true, true, false⟩, some (ground_truth sinF piQ ((0 : ℕ) : ℤ) cfgC5 + cfgC5.noise_std * rng cfgC5.seed 0)) := by
      unfold tickOut
      rw [hp0, hl0, hx0, tickNow_dtOne cfgC5 rfl 4]
      exact c5_step_hold (ground_truth sinF piQ ((0 : ℕ) : ℤ) cfgC5 + cfgC5.noise_std * rng cfgC5.seed 0) (ground_truth sinF piQ ((2 : ℕ) : ℤ) cfgC5 + cfgC5.noise_std * rng cfgC5.seed 1) ((4 : ℕ) : ℤ) ((2 : ℕ) : ℤ) (by decide)
        (c5_meas_bound sinF piQ rng hsin hrng ((2 : ℕ) : ℤ) 1)
        (c5_meas_bound sinF piQ rng hsin hrng ((0 : ℕ) : ℤ) 0) (by decide)
    obtain ⟨hp, hl, hx, hk, hq, hn⟩ := c5_tick_sample E sinF piQ rng (iterState (adaptivePolicy 2 1000 10) cfgC5 E sinF piQ rng 4) 4 false (some (ground_truth sinF piQ ((0 : ℕ) : ℤ) cfgC5 + cfgC5.noise_std * rng cfgC5.seed 0)) hstep
    rw [he]
    refine ⟨?_, ?_, ?_, ?_, ?_, ?_⟩ <;>
      simp [hp, hl, hx, hk, hq, hn, hp0, hl0, hx0, hk0, hq0, hn0]
  have st6 : (iterState (adaptivePolicy 2 1000 10) cfgC5 E sinF piQ rng 6).ps = some (ground_truth sinF piQ ((0 : ℕ) : ℤ) cfgC5 + cfgC5.noise_std * rng cfgC5.seed 0) ∧
      (iterState (adaptivePolicy 2 1000 10) cfgC5 E sinF piQ rng 6).lastMeasurement = some (ground_truth sinF piQ ((4 : ℕ) : ℤ) cfgC5 + cfgC5.noise_std * rng cfgC5.seed 2) ∧
      (iterState (adaptivePolicy 2 1000 10) cfgC5 E sinF piQ rng 6).lastTxS = some ((2 : ℕ) : ℤ) ∧
      (iterState (adaptivePolicy 2 1000 10) cfgC5 E sinF piQ rng 6).samplesTaken = 3 ∧
      (iterState (adaptivePolicy 2 1000 10) cfgC5 E sinF piQ rng 6).packetsSent = 1 ∧
      (iterState (adaptivePolicy 2 1000 10) cfgC5 E sinF piQ rng 6).sent = [false, false, true, false, false, false] := by
    have he : (iterState (adaptivePolicy 2 1000 10) cfgC5 E sinF piQ rng 6) =
        tick (adaptivePolicy 2 1000 10) cfgC5 E sinF piQ rng (iterState (adaptivePolicy 2 1000 10) cfgC5 E sinF piQ rng 5) 5 :=
      iterState_succ (adaptivePolicy 2 1000 10) cfgC5 E sinF piQ rng 5
    obtain ⟨hp0, hl0, hx0, hk0, hq0, hn0⟩ := st5
    obtain ⟨hp, hl, hx, hk, hq, hn⟩ := c5_tick_skip E sinF piQ rng (iterState (adaptivePolicy 2 1000 10) cfgC5 E sinF piQ rng 5) 5 (by decide)
    rw [he]
    refine ⟨?_, ?_, ?_, ?_, ?_, ?_⟩ <;>
      simp [hp, hl, hx, hk, hq, hn, hp0, hl0, hx0, hk0, hq0, hn0]
  have st7 : (iterState (adaptivePolicy 2 1000 10) cfgC5 E sinF piQ rng 7).ps = some (ground_truth sinF piQ ((0 : ℕ) : ℤ) cfgC5 + cfgC5.noise_std * rng cfgC5.seed 0) ∧
      (iterState (adaptivePolicy 2 1000 10) cfgC5 E sinF piQ rng 7).lastMeasurement = some (ground_truth sinF piQ ((6 : ℕ) : ℤ) cfgC5 + cfgC5.noise_std * rng cfgC5.seed 3) ∧
      (iterState (adaptivePolicy 2 1000 10) cfgC5 E sinF piQ rng 7).lastTxS = some ((2 : ℕ) : ℤ) ∧
      (iterState (adaptivePolicy 2 1000 10) cfgC5 E sinF piQ rng 7).samplesTaken = 4 ∧
      (iterState (adaptivePolicy 2 1000 10) cfgC5 E sinF piQ rng 7).packetsSent = 1 ∧
      (iterState (adaptivePolicy 2 1000 10) cfgC5 E sinF piQ rng 7).sent = [false, false, true, false, false, false, false] := by
    have he : (iterState (adaptivePolicy 2 1000 10) cfgC5 E sinF piQ rng 7) =
        tick (adaptivePolicy 2 1000 10) cfgC5 E sinF piQ rng (iterState (adaptivePolicy 2 1000 10) cfgC5 E sinF piQ rng 6) 6 :=
      iterState_succ (adaptivePolicy 2 1000 10) cfgC5 E sinF piQ rng 6
    obtain ⟨hp0, hl0, hx0, hk0, hq0, hn0⟩ := st6
    have hstep : tickOut (adaptivePolicy 2 1000 10) cfgC5 (iterState (adaptivePolicy 2 1000 10) cfgC5 E sinF piQ rng 6) 6 =
        (⟨true, true, false⟩, some (ground_truth sinF piQ ((0 : ℕ) : ℤ) cfgC5 + cfgC5.noise_std * rng cfgC5.seed 0)) := by
      unfold tickOut
      rw [hp0, hl0, hx0, tickNow_dtOne cfgC5 rfl 6]
      exact c5_step_hold (ground_truth sinF piQ ((0 : ℕ) : ℤ) cfgC5 + cfgC5.noise_std * rng cfgC5.seed 0) (ground_truth sinF piQ ((4 : ℕ) : ℤ) cfgC5 + cfgC5.noise_std * rng cfgC5.seed 2) ((6 : ℕ) : ℤ) ((2 : ℕ) : ℤ) (by decide)
        (c5_meas_bound sinF piQ rng hsin hrng ((4 : ℕ) : ℤ) 2)
        (c5_meas_bound sinF piQ rng hsin hrng ((0 : ℕ) : ℤ) 0) (by decide)
    obtain ⟨hp, hl, hx, hk, hq, hn⟩ := c5_tick_sample E sinF piQ rng (iterState (adaptivePolicy 2 1000 10) cfgC5 E sinF piQ rng 6) 6 false (some (ground_truth sinF piQ ((0 : ℕ) : ℤ) cfgC5 + cfgC5.noise_std * rng cfgC5.seed 0)) hstep
    rw [he]
    refine ⟨?_, ?_, ?_, ?_, ?_, ?_⟩ <;>
      simp [hp, hl, hx, hk, hq, hn, hp0, hl0, hx0, hk0, hq0, hn0]
  have st8 : (iterState (adaptivePolicy 2 1000 10) cfgC5 E sinF piQ rng 8).ps = some (ground_truth sinF piQ ((0 : ℕ) : ℤ) cfgC5 + cfgC5.noise_std * rng cfgC5.seed 0) ∧
      (iterState (adaptivePolicy 2 1000 10) cfgC5 E sinF piQ rng 8).lastMeasurement = some (ground_truth sinF piQ ((6 : ℕ) : ℤ) cfgC5 + cfgC5.noise_std * rng cfgC5.seed 3) ∧
      (iterState (adaptivePolicy 2 1000 10) cfgC5 E sinF piQ rng 8).lastTxS = some ((2 : ℕ) : ℤ) ∧
      (iterState (adaptivePolicy 2 1000 10) cfgC5 E sinF piQ rng 8).samplesTaken = 4 ∧
      (iterState (adaptivePolicy 2 1000 10) cfgC5 E sinF piQ rng 8).packetsSent = 1 ∧
      (iterState (adaptivePolicy 2 1000 10) cfgC5 E sinF piQ rng 8).sent = [false, false, true, false, false, false, false, false] := by
    have he : (iterState (adaptivePolicy 2 1000 10) cfgC5 E sinF piQ rng 8) =
        tick (adaptivePolicy 2 1000 10) cfgC5 E sinF piQ rng (iterState (adaptivePolicy 2 1000 10) cfgC5 E sinF piQ rng 7) 7 :=
      iterState_succ (adaptivePolicy 2 1000 10) cfgC5 E sinF piQ rng 7
    obtain ⟨hp0, hl0, hx0, hk0, hq0, hn0⟩ := st7
    obtain ⟨hp, hl, hx, hk, hq, hn⟩ := c5_tick_skip E sinF piQ rng (iterState (adaptivePolicy 2 1000 10) cfgC5 E sinF piQ rng 7) 7 (by decide)
    rw [he]
    refine ⟨?_, ?_, ?_, ?_, ?_, ?_⟩ <;>
      simp [hp, hl, hx, hk, hq, hn, hp0, hl0, hx0, hk0, hq0, hn0]
  have st9 : (iterState (adaptivePolicy 2 1000 10) cfgC5 E sinF piQ rng 9).ps = some (ground_truth sinF piQ ((0 : ℕ) : ℤ) cfgC5 + cfgC5.noise_std * rng cfgC5.seed 0) ∧
      (iterState (adaptivePolicy 2 1000 10) cfgC5 E sinF piQ rng 9).lastMeasurement = some (ground_truth sinF piQ ((8 : ℕ) : ℤ) cfgC5 + cfgC5.noise_std * rng cfgC5.seed 4) ∧
      (iterState (adaptivePolicy 2 1000 10) cfgC5 E sinF piQ rng 9).lastTxS = some ((2 : ℕ) : ℤ) ∧
      (iterState (adaptivePolicy 2 1000 10) cfgC5 E sinF piQ rng 9).samplesTaken = 5 ∧
      (iterState (adaptivePolicy 2 1000 10) cfgC5 E sinF piQ rng 9).packetsSent = 1 ∧
      (iterState (adaptivePolicy 2 1000 10) cfgC5 E sinF piQ rng 9).sent = [false, false, true, false, false, false, false, false, false] := by
    have he : (iterState (adaptivePolicy 2 1000 10) cfgC5 E sinF piQ rng 9) =
        tick (adaptivePolicy 2 1000 10) cfgC5 E sinF piQ rng (iterState (adaptivePolicy 2 1000 10) cfgC5 E sinF piQ rng 8) 8 :=
      iterState_succ (adaptivePolicy 2 1000 10) cfgC5 E sinF piQ rng 8
    obtain ⟨hp0, hl0, hx0, hk0, hq0, hn0⟩ := st8
    have hstep : tickOut (adaptivePolicy 2 1000 10) cfgC5 (iterState (adaptivePolicy 2 1000 10) cfgC5 E sinF piQ rng 8) 8 =
        (⟨true, true, false⟩, some (ground_truth sinF piQ ((0 : ℕ) : ℤ) cfgC5 + cfgC5.noise_std * rng cfgC5.seed 0)) := by
      unfold tickOut
      rw [hp0, hl0, hx0, tickNow_dtOne cfgC5 rfl 8]
      exact c5_step_hold (ground_truth sinF piQ ((0 : ℕ) : ℤ) cfgC5 + cfgC5.noise_std * rng cfgC5.seed 0) (ground_truth sinF piQ ((6 : ℕ) : ℤ) cfgC5 + cfgC5.noise_std * rng cfgC5.seed 3) ((8 : ℕ) : ℤ) ((2 : ℕ) : ℤ) (by decide)
        (c5_meas_bound sinF piQ rng hsin hrng ((6 : ℕ) : ℤ) 3)
        (c5_meas_bound sinF piQ rng hsin hrng ((0 : ℕ) : ℤ) 0) (by decide)
    obtain ⟨hp, hl, hx, hk, hq, hn⟩ := c5_tick_sample E sinF piQ rng (iterState (adaptivePolicy 2 1000 10) cfgC5 E sinF piQ rng 8) 8 false (some (ground_truth sinF piQ ((0 : ℕ) : ℤ) cfgC5 + cfgC5.noise_std * rng cfgC5.seed 0)) hstep
    rw [he]
    refine ⟨?_, ?_, ?_, ?_, ?_, ?_⟩ <;>
      simp [hp, hl, hx, hk, hq, hn, hp0, hl0, hx0, hk0, hq0, hn0]
  have st10 : (iterState (adaptivePolicy 2 1000 10) cfgC5 E sinF piQ rng 10).ps = some (ground_truth sinF piQ ((0 : ℕ) : ℤ) cfgC5 + cfgC5.noise_std * rng cfgC5.seed 0) ∧
      (iterState (adaptivePolicy 2 1000 10) cfgC5 E sinF piQ rng 10).lastMeasurement = some (ground_truth sinF piQ ((8 : ℕ) : ℤ) cfgC5 + cfgC5.noise_std * rng cfgC5.seed 4) ∧
      (iterState (adaptivePolicy 2 1000 10) cfgC5 E sinF piQ rng 10).lastTxS = some ((2 : ℕ) : ℤ) ∧
      (iterState (adaptivePolicy 2 1000 10) cfgC5 E sinF piQ rng 10).samplesTaken = 5 ∧
      (iterState (adaptivePolicy 2 1000 10) cfgC5 E sinF piQ rng 10).packetsSent = 1 ∧
      (iterState (adaptivePolicy 2 1000 10) cfgC5 E sinF piQ rng 10).sent = [false, false, true, false, false, false, false, false, false, false] := by
    have he : (iterState (adaptivePolicy 2 1000 10) cfgC5 E sinF piQ rng 10) =
        tick (adaptivePolicy 2 1000 10) cfgC5 E sinF piQ rng (iterState (adaptivePolicy 2 1000 10) cfgC5 E sinF piQ rng 9) 9 :=
      iterState_succ (adaptivePolicy 2 1000 10) cfgC5 E sinF piQ rng 9
    obtain ⟨hp0, hl0, hx0, hk0, hq0, hn0⟩ := st9
    obtain ⟨hp, hl, hx, hk, hq, hn⟩ := c5_tick_skip E sinF piQ rng (iterState (adaptivePolicy 2 1000 10) cfgC5 E sinF piQ rng 9) 9 (by decide)
    rw [he]
    refine ⟨?_, ?_, ?_, ?_, ?_, ?_⟩ <;>
      simp [hp, hl, hx, hk, hq, hn, hp0, hl0, hx0, hk0, hq0, hn0]
  have st11 : (iterState (adaptivePolicy 2 1000 10) cfgC5 E sinF piQ rng 11).ps = some (ground_truth sinF piQ ((0 : ℕ) : ℤ) cfgC5 + cfgC5.noise_std * rng cfgC5.seed 0) ∧
      (iterState (adaptivePolicy 2 1000 10) cfgC5 E sinF piQ rng 11).lastMeasurement = some (ground_truth sinF piQ ((10 : ℕ) : ℤ) cfgC5 + cfgC5.noise_std * rng cfgC5.seed 5) ∧
      (iterState (adaptivePolicy 2 1000 10) cfgC5 E sinF piQ rng 11).lastTxS = some ((2 : ℕ) : ℤ) ∧
      (iterState (adaptivePolicy 2 1000 10) cfgC5 E sinF piQ rng 11).samplesTaken = 6 ∧
      (iterState (adaptivePolicy 2 1000 10) cfgC5 E sinF piQ rng 11).packetsSent = 1 ∧
      (iterState (adaptivePolicy 2 1000 10) cfgC5 E sinF piQ rng 11).sent = [false, false, true, false, false, false, false, false, false, false, false] := by
    have he : (iterState (adaptivePolicy 2 1000 10) cfgC5 E sinF piQ rng 11) =
        tick (adaptivePolicy 2 1000 10) cfgC5 E sinF piQ rng (iterState (adaptivePolicy 2 1000 10) cfgC5 E sinF piQ rng 10) 10 :=
      iterState_succ (adaptivePolicy 2 1000 10) cfgC5 E sinF piQ rng 10
    obtain ⟨hp0, hl0, hx0, hk0, hq0, hn0⟩ := st10
    have hstep : tickOut (adaptivePolicy 2 1000 10) cfgC5 (iterState (adaptivePolicy 2 1000 10) cfgC5 E sinF piQ rng 10) 10 =
        (⟨true, true, false⟩, some (ground_truth sinF piQ ((0 : ℕ) : ℤ) cfgC5 + cfgC5.noise_std * rng cfgC5.seed 0)) := by
      unfold tickOut
      rw [hp0, hl0, hx0, tickNow_dtOne cfgC5 rfl 10]
      exact c5_step_hold (ground_truth sinF piQ ((0 : ℕ) : ℤ) cfgC5 + cfgC5.noise_std * rng cfgC5.seed 0) (ground_truth sinF piQ ((8 : ℕ) : ℤ) cfgC5 + cfgC5.noise_std * rng cfgC5.seed 4) ((10 : ℕ) : ℤ) ((2 : ℕ) : ℤ) (by decide)
        (c5_meas_bound sinF piQ rng hsin hrng ((8 : ℕ) : ℤ) 4)
        (c5_meas_bound sinF piQ rng hsin hrng ((0 : ℕ) : ℤ) 0) (by decide)
    obtain ⟨hp, hl, hx, hk, hq, hn⟩ := c5_tick_sample E sinF piQ rng (iterState (adaptivePolicy 2 1000 10) cfgC5 E sinF piQ rng 10) 10 false (some (ground_truth sinF piQ ((0 : ℕ) : ℤ) cfgC5 + cfgC5.noise_std * rng cfgC5.seed 0)) hstep
    rw [he]
    refine ⟨?_, ?_, ?_, ?_, ?_, ?_⟩ <;>
      simp [hp, hl, hx, hk, hq, hn, hp0, hl0, hx0, hk0, hq0, hn0]
  have st12 : (iterState (adaptivePolicy 2 1000 10) cfgC5 E sinF piQ rng 12).ps = some (ground_truth sinF piQ ((0 : ℕ) : ℤ) cfgC5 + cfgC5.noise_std * rng cfgC5.seed 0) ∧
      (iterState (adaptivePolicy 2 1000 10) cfgC5 E sinF piQ rng 12).lastMeasurement = some (ground_truth sinF piQ ((10 : ℕ) : ℤ) cfgC5 + cfgC5.noise_std * rng cfgC5.seed 5) ∧
      (iterState (adaptivePolicy 2 1000 10) cfgC5 E sinF piQ rng 12).lastTxS = some ((2 : ℕ) : ℤ) ∧
      (iterState (adaptivePolicy 2 1000 10) cfgC5 E sinF piQ rng 12).samplesTaken = 6 ∧
      (iterState (adaptivePolicy 2 1000 10) cfgC5 E sinF piQ rng 12).packetsSent = 1 ∧
      (iterState (adaptivePolicy 2 1000 10) cfgC5 E sinF piQ rng 12).sent = [false, false, true, false, false, false, false, false, false, false, false, false] := by
    have he : (iterState (adaptivePolicy 2 1000 10) cfgC5 E sinF piQ rng 12) =
        tick (adaptivePolicy 2 1000 10) cfgC5 E sinF piQ rng (iterState (adaptivePolicy 2 1000 10) cfgC5 E sinF piQ rng 11) 11 :=
      iterState_succ (adaptivePolicy 2 1000 10) cfgC5 E sinF piQ rng 11
    obtain ⟨hp0, hl0, hx0, hk0, hq0, hn0⟩ := st11
    obtain ⟨hp, hl, hx, hk, hq, hn⟩ := c5_tick_skip E sinF piQ rng (iterState (adaptivePolicy 2 1000 10) cfgC5 E sinF piQ rng 11) 11 (by decide)
    rw [he]
    refine ⟨?_, ?_, ?_, ?_, ?_, ?_⟩ <;>
      simp [hp, hl, hx, hk, hq, hn, hp0, hl0, hx0, hk0, hq0, hn0]
  have st13 : (iterState (adaptivePolicy 2 1000 10) cfgC5 E sinF piQ rng 13).ps = some (ground_truth sinF piQ ((10 : ℕ) : ℤ) cfgC5 + cfgC5.noise_std * rng cfgC5.seed 5) ∧
      (iterState (adaptivePolicy 2 1000 10) cfgC5 E sinF piQ rng 13).lastMeasurement = some (ground_truth sinF piQ ((12 : ℕ) : ℤ) cfgC5 + cfgC5.noise_std * rng cfgC5.seed 6) ∧
      (iterState (adaptivePolicy 2 1000 10) cfgC5 E sinF piQ rng 13).lastTxS = some ((12 : ℕ) : ℤ) ∧
      (iterState (adaptivePolicy 2 1000 10) cfgC5 E sinF piQ rng 13).samplesTaken = 7 ∧
      (iterState (adaptivePolicy 2 1000 10) cfgC5 E sinF piQ rng 13).packetsSent = 2 ∧
      (iterState (adaptivePolicy 2 1000 10) cfgC5 E sinF piQ rng 13).sent = [false, false, true, false, false, false, false, false, false, false, false, false, true] := by
    have he : (iterState (adaptivePolicy 2 1000 10) cfgC5 E sinF piQ rng 13) =
        tick (adaptivePolicy 2 1000 10) cfgC5 E sinF piQ rng (iterState (adaptivePolicy 2 1000 10) cfgC5 E sinF piQ rng 12) 12 :=
      iterState_succ (adaptivePolicy 2 1000 10) cfgC5 E sinF piQ rng 12
    obtain ⟨hp0, hl0, hx0, hk0, hq0, hn0⟩ := st12
    have hstep : tickOut (adaptivePolicy 2 1000 10) cfgC5 (iterState (adaptivePolicy 2 1000 10) cfgC5 E sinF piQ rng 12) 12 =
        (⟨true, true, true⟩, some (ground_truth sinF piQ ((10 : ℕ) : ℤ) cfgC5 + cfgC5.noise_std * rng cfgC5.seed 5)) := by
      unfold tickOut
      rw [hp0, hl0, hx0, tickNow_dtOne cfgC5 rfl 12]
      exact c5_step_keepalive (ground_truth sinF piQ ((0 : ℕ) : ℤ) cfgC5 + cfgC5.noise_std * rng cfgC5.seed 0) (ground_truth sinF piQ ((10 : ℕ) : ℤ) cfgC5 + cfgC5.noise_std * rng cfgC5.seed 5) ((12 : ℕ) : ℤ) ((2 : ℕ) : ℤ) (by decide)
        (c5_meas_bound sinF piQ rng hsin hrng ((10 : ℕ) : ℤ) 5)
        (c5_meas_bound sinF piQ rng hsin hrng ((0 : ℕ) : ℤ) 0) (by decide)
    obtain ⟨hp, hl, hx, hk, hq, hn⟩ := c5_tick_sample E sinF piQ rng (iterState (adaptivePolicy 2 1000 10) cfgC5 E sinF piQ rng 12) 12 true (some (ground_truth sinF piQ ((10 : ℕ) : ℤ) cfgC5 + cfgC5.noise_std * rng cfgC5.seed 5)) hstep
    rw [he]
    refine ⟨?_, ?_, ?_, ?_, ?_, ?_⟩ <;>
      simp [hp, hl, hx, hk, hq, hn, hp0, hl0, hx0, hk0, hq0, hn0]
  have st14 : (iterState (adaptivePolicy 2 1000 10) cfgC5 E sinF piQ rng 14).ps = some (ground_truth sinF piQ ((10 : ℕ) : ℤ) cfgC5 + cfgC5.noise_std * rng cfgC5.seed 5) ∧
      (iterState (adaptivePolicy 2 1000 10) cfgC5 E sinF piQ rng 14).lastMeasurement = some (ground_truth sinF piQ ((12 : ℕ) : ℤ) cfgC5 + cfgC5.noise_std * rng cfgC5.seed 6) ∧
      (iterState (adaptivePolicy 2 1000 10) cfgC5 E sinF piQ rng 14).lastTxS = some ((12 : ℕ) : ℤ) ∧
      (iterState (adaptivePolicy 2 1000 10) cfgC5 E sinF piQ rng 14).samplesTaken = 7 ∧
      (iterState (adaptivePolicy 2 1000 10) cfgC5 E sinF piQ rng 14).packetsSent = 2 ∧
      (iterState (adaptivePolicy 2 1000 10) cfgC5 E sinF piQ rng 14).sent = [false, false, true, false, false, false, false, false, false, false, false, false, true, false] := by
    have he : (iterState (adaptivePolicy 2 1000 10) cfgC5 E sinF piQ rng 14) =
        tick (adaptivePolicy 2 1000 10) cfgC5 E sinF piQ rng (iterState (adaptivePolicy 2 1000 10) cfgC5 E sinF piQ rng 13) 13 :=
      iterState_succ (adaptivePolicy 2 1000 10) cfgC5 E sinF piQ rng 13
    obtain ⟨hp0, hl0, hx0, hk0, hq0, hn0⟩ := st13
    obtain ⟨hp, hl, hx, hk, hq, hn⟩ := c5_tick_skip E sinF piQ rng (iterState (adaptivePolicy 2 1000 10) cfgC5 E sinF piQ rng 13) 13 (by decide)
    rw [he]
    refine ⟨?_, ?_, ?_, ?_, ?_, ?_⟩ <;>
      simp [hp, hl, hx, hk, hq, hn, hp0, hl0, hx0, hk0, hq0, hn0]
  have st15 : (iterState (adaptivePolicy 2 1000 10) cfgC5 E sinF piQ rng 15).ps = some (ground_truth sinF piQ ((10 : ℕ) : ℤ) cfgC5 + cfgC5.noise_std * rng cfgC5.seed 5) ∧
      (iterState (adaptivePolicy 2 1000 10) cfgC5 E sinF piQ rng 15).lastMeasurement = some (ground_truth sinF piQ ((14 : ℕ) : ℤ) cfgC5 + cfgC5.noise_std * rng cfgC5.seed 7) ∧
      (iterState (adaptivePolicy 2 1000 10) cfgC5 E sinF piQ rng 15).lastTxS = some ((12 : ℕ) : ℤ) ∧
      (iterState (adaptivePolicy 2 1000 10) cfgC5 E sinF piQ rng 15).samplesTaken = 8 ∧
      (iterState (adaptivePolicy 2 1000 10) cfgC5 E sinF piQ rng 15).packetsSent = 2 ∧
      (iterState (adaptivePolicy 2 1000 10) cfgC5 E sinF piQ rng 15).sent = [false, false, true, false, false, false, false, false, false, false, false, false, true, false, false] := by
    have he : (iterState (adaptivePolicy 2 1000 10) cfgC5 E sinF piQ rng 15) =
        tick (adaptivePolicy 2 1000 10) cfgC5 E sinF piQ rng (iterState (adaptivePolicy 2 1000 10) cfgC5 E sinF piQ rng 14) 14 :=
      iterState_succ (adaptivePolicy 2 1000 10) cfgC5 E sinF piQ rng 14
    obtain ⟨hp0, hl0, hx0, hk0, hq0, hn0⟩ := st14
    have hstep : tickOut (adaptivePolicy 2 1000 10) cfgC5 (iterState (adaptivePolicy 2 1000 10) cfgC5 E sinF piQ rng 14) 14 =
        (⟨true, true, false⟩, some (ground_truth sinF piQ ((10 : ℕ) : ℤ) cfgC5 + cfgC5.noise_std * rng cfgC5.seed 5)) := by
      unfold tickOut
      rw [hp0, hl0, hx0, tickNow_dtOne cfgC5 rfl 14]
      exact c5_step_hold (ground_truth sinF piQ ((10 : ℕ) : ℤ) cfgC5 + cfgC5.noise_std * rng cfgC5.seed 5) (ground_truth sinF piQ ((12 : ℕ) : ℤ) cfgC5 + cfgC5.noise_std * rng cfgC5.seed 6) ((14 : ℕ) : ℤ) ((12 : ℕ) : ℤ) (by decide)
        (c5_meas_bound sinF piQ rng hsin hrng ((12 : ℕ) : ℤ) 6)
        (c5_meas_bound sinF piQ rng hsin hrng ((10 : ℕ) : ℤ) 5) (by decide)
    obtain ⟨hp, hl, hx, hk, hq, hn⟩ := c5_tick_sample E sinF piQ rng (iterState (adaptivePolicy 2 1000 10) cfgC5 E sinF piQ rng 14) 14 false (some (ground_truth sinF piQ ((10 : ℕ) : ℤ) cfgC5 + cfgC5.noise_std * rng cfgC5.seed 5)) hstep
    rw [he]
    refine ⟨?_, ?_, ?_, ?_, ?_, ?_⟩ <;>
      simp [hp, hl, hx, hk, hq, hn, hp0, hl0, hx0, hk0, hq0, hn0]
  have st16 : (iterState (adaptivePolicy 2 1000 10) cfgC5 E sinF piQ rng 16).ps = some (ground_truth sinF piQ ((10 : ℕ) : ℤ) cfgC5 + cfgC5.noise_std * rng cfgC5.seed 5) ∧
      (iterState (adaptivePolicy 2 1000 10) cfgC5 E sinF piQ rng 16).lastMeasurement = some (ground_truth sinF piQ ((14 : ℕ) : ℤ) cfgC5 + cfgC5.noise_std * rng cfgC5.seed 7) ∧
      (iterState (adaptivePolicy 2 1000 10) cfgC5 E sinF piQ rng 16).lastTxS = some ((12 : ℕ) : ℤ) ∧
      (iterState (adaptivePolicy 2 1000 10) cfgC5 E sinF piQ rng 16).samplesTaken = 8 ∧
      (iterState (adaptivePolicy 2 1000 10) cfgC5 E sinF piQ rng 16).packetsSent = 2 ∧
      (iterState (adaptivePolicy 2 1000 10) cfgC5 E sinF piQ rng 16).sent = [false, false, true, false, false, false, false, false, false, false, false, false, true, false, false, false] := by
    have he : (iterState (adaptivePolicy 2 1000 10) cfgC5 E sinF piQ rng 16) =
        tick (adaptivePolicy 2 1000 10) cfgC5 E sinF piQ rng (iterState (adaptivePolicy 2 1000 10) cfgC5 E sinF piQ rng 15) 15 :=
      iterState_succ (adaptivePolicy 2 1000 10) cfgC5 E sinF piQ rng 15
    obtain ⟨hp0, hl0, hx0, hk0, hq0, hn0⟩ := st15
    obtain ⟨hp, hl, hx, hk, hq, hn⟩ := c5_tick_skip E sinF piQ rng (iterState (adaptivePolicy 2 1000 10) cfgC5 E sinF piQ rng 15) 15 (by decide)
    rw [he]
    refine ⟨?_, ?_, ?_, ?_, ?_, ?_⟩ <;>
      simp [hp, hl, hx, hk, hq, hn, hp0, hl0, hx0, hk0, hq0, hn0]
  have st17 : (iterState (adaptivePolicy 2 1000 10) cfgC5 E sinF piQ rng 17).ps = some (ground_truth sinF piQ ((10 : ℕ) : ℤ) cfgC5 + cfgC5.noise_std * rng cfgC5.seed 5) ∧
      (iterState (adaptivePolicy 2 1000 10) cfgC5 E sinF piQ rng 17).lastMeasurement = some (ground_truth sinF piQ ((16 : ℕ) : ℤ) cfgC5 + cfgC5.noise_std * rng cfgC5.seed 8) ∧
      (iterState (adaptivePolicy 2 1000 10) cfgC5 E sinF piQ rng 17).lastTxS = some ((12 : ℕ) : ℤ) ∧
      (iterState (adaptivePolicy 2 1000 10) cfgC5 E sinF piQ rng 17).samplesTaken = 9 ∧
      (iterState (adaptivePolicy 2 1000 10) cfgC5 E sinF piQ rng 17).packetsSent = 2 ∧
      (iterState (adaptivePolicy 2 1000 10) cfgC5 E sinF piQ rng 17).sent = [false, false, true, false, false, false, false, false, false, false, false, false, true, false, false, false, false] := by
    have he : (iterState (adaptivePolicy 2 1000 10) cfgC5 E sinF piQ rng 17) =
        tick (adaptivePolicy 2 1000 10) cfgC5 E sinF piQ rng (iterState (adaptivePolicy 2 1000 10) cfgC5 E sinF piQ rng 16) 16 :=
      iterState_succ (adaptivePolicy 2 1000 10) cfgC5 E sinF piQ rng 16
    obtain ⟨hp0, hl0, hx0, hk0, hq0, hn0⟩ := st16
    have hstep : tickOut (adaptivePolicy 2 1000 10) cfgC5 (iterState (adaptivePolicy 2 1000 10) cfgC5 E sinF piQ rng 16) 16 =
        (⟨true, true, false⟩, some (ground_truth sinF piQ ((10 : ℕ) : ℤ) cfgC5 + cfgC5.noise_std * rng cfgC5.seed 5)) := by
      unfold tickOut
      rw [hp0, hl0, hx0, tickNow_dtOne cfgC5 rfl 16]
      exact c5_step_hold (ground_truth sinF piQ ((10 : ℕ) : ℤ) cfgC5 + cfgC5.noise_std * rng cfgC5.seed 5) (ground_truth sinF piQ ((14 : ℕ) : ℤ) cfgC5 + cfgC5.noise_std * rng cfgC5.seed 7) ((16 : ℕ) : ℤ) ((12 : ℕ) : ℤ) (by decide)
        (c5_meas_bound sinF piQ rng hsin hrng ((14 : ℕ) : ℤ) 7)
        (c5_meas_bound sinF piQ rng hsin hrng ((10 : ℕ) : ℤ) 5) (by decide)
    obtain ⟨hp, hl, hx, hk, hq, hn⟩ := c5_tick_sample E sinF piQ rng (iterState (adaptivePolicy 2 1000 10) cfgC5 E sinF piQ rng 16) 16 false (some (ground_truth sinF piQ ((10 : ℕ) : ℤ) cfgC5 + cfgC5.noise_std * rng cfgC5.seed 5)) hstep
    rw [he]
    refine ⟨?_, ?_, ?_, ?_, ?_, ?_⟩ <;>
      simp [hp, hl, hx, hk, hq, hn, hp0, hl0, hx0, hk0, hq0, hn0]
  have st18 : (iterState (adaptivePolicy 2 1000 10) cfgC5 E sinF piQ rng 18).ps = some (ground_truth sinF piQ ((10 : ℕ) : ℤ) cfgC5 + cfgC5.noise_std * rng cfgC5.seed 5) ∧
      (iterState (adaptivePolicy 2 1000 10) cfgC5 E sinF piQ rng 18).lastMeasurement = some (ground_truth sinF piQ ((16 : ℕ) : ℤ) cfgC5 + cfgC5.noise_std * rng cfgC5.seed 8) ∧
      (iterState (adaptivePolicy 2 1000 10) cfgC5 E sinF piQ rng 18).lastTxS = some ((12 : ℕ) : ℤ) ∧
      (iterState (adaptivePolicy 2 1000 10) cfgC5 E sinF piQ rng 18).samplesTaken = 9 ∧
      (iterState (adaptivePolicy 2 1000 10) cfgC5 E sinF piQ rng 18).packetsSent = 2 ∧
      (iterState (adaptivePolicy 2 1000 10) cfgC5 E sinF piQ rng 18).sent = [false, false, true, false, false, false, false, false, false, false, false, false, true, false, false, false, false, false] := by
    have he : (iterState (adaptivePolicy 2 1000 10) cfgC5 E sinF piQ rng 18) =
        tick (adaptivePolicy 2 1000 10) cfgC5 E sinF piQ rng (iterState (adaptivePolicy 2 1000 10) cfgC5 E sinF piQ rng 17) 17 :=
      iterState_succ (adaptivePolicy 2 1000 10) cfgC5 E sinF piQ rng 17
    obtain ⟨hp0, hl0, hx0, hk0, hq0, hn0⟩ := st17
    obtain ⟨hp, hl, hx, hk, hq, hn⟩ := c5_tick_skip E sinF piQ rng (iterState (adaptivePolicy 2 1000 10) cfgC5 E sinF piQ rng 17) 17 (by decide)
    rw [he]
    refine ⟨?_, ?_, ?_, ?_, ?_, ?_⟩ <;>
      simp [hp, hl, hx, hk, hq, hn, hp0, hl0, hx0, hk0, hq0, hn0]
  have st19 : (iterState (adaptivePolicy 2 1000 10) cfgC5 E sinF piQ rng 19).ps = some (ground_truth sinF piQ ((10 : ℕ) : ℤ) cfgC5 + cfgC5.noise_std * rng cfgC5.seed 5) ∧
      (iterState (adaptivePolicy 2 1000 10) cfgC5 E sinF piQ rng 19).lastMeasurement = some (ground_truth sinF piQ ((18 : ℕ) : ℤ) cfgC5 + cfgC5.noise_std * rng cfgC5.seed 9) ∧
      (iterState (adaptivePolicy 2 1000 10) cfgC5 E sinF piQ rng 19).lastTxS = some ((12 : ℕ) : ℤ) ∧
      (iterState (adaptivePolicy 2 1000 10) cfgC5 E sinF piQ rng 19).samplesTaken = 10 ∧
      (iterState (adaptivePolicy 2 1000 10) cfgC5 E sinF piQ rng 19).packetsSent = 2 ∧
      (iterState (adaptivePolicy 2 1000 10) cfgC5 E sinF piQ rng 19).sent = [false, false, true, false, false, false, false, false, false, false, false, false, true, false, false, false, false, false, false] := by
    have he : (iterState (adaptivePolicy 2 1000 10) cfgC5 E sinF piQ rng 19) =
        tick (adaptivePolicy 2 1000 10) cfgC5 E sinF piQ rng (iterState (adaptivePolicy 2 1000 10) cfgC5 E sinF piQ rng 18) 18 :=
      iterState_succ (adaptivePolicy 2 1000 10) cfgC5 E sinF piQ rng 18
    obtain ⟨hp0, hl0, hx0, hk0, hq0, hn0⟩ := st18
    have hstep : tickOut (adaptivePolicy 2 1000 10) cfgC5 (iterState (adaptivePolicy 2 1000 10) cfgC5 E sinF piQ rng 18) 18 =
        (⟨true, true, false⟩, some (ground_truth sinF piQ ((10 : ℕ) : ℤ) cfgC5 + cfgC5.noise_std * rng cfgC5.seed 5)) := by
      unfold tickOut
      rw [hp0, hl0, hx0, tickNow_dtOne cfgC5 rfl 18]
      exact c5_step_hold (ground_truth sinF piQ ((10 : ℕ) : ℤ) cfgC5 + cfgC5.noise_std * rng cfgC5.seed 5) (ground_truth sinF piQ ((16 : ℕ) : ℤ) cfgC5 + cfgC5.noise_std * rng cfgC5.seed 8) ((18 : ℕ) : ℤ) ((12 : ℕ) : ℤ) (by decide)
        (c5_meas_bound sinF piQ rng hsin hrng ((16 : ℕ) : ℤ) 8)
        (c5_meas_bound sinF piQ rng hsin hrng ((10 : ℕ) : ℤ) 5) (by decide)
    obtain ⟨hp, hl, hx, hk, hq, hn⟩ := c5_tick_sample E sinF piQ rng (iterState (adaptivePolicy 2 1000 10) cfgC5 E sinF piQ rng 18) 18 false (some (ground_truth sinF piQ ((10 : ℕ) : ℤ) cfgC5 + cfgC5.noise_std * rng cfgC5.seed 5)) hstep
    rw [he]
    refine ⟨?_, ?_, ?_, ?_, ?_, ?_⟩ <;>
      simp [hp, hl, hx, hk, hq, hn, hp0, hl0, hx0, hk0, hq0, hn0]
  have st20 : (iterState (adaptivePolicy 2 1000 10) cfgC5 E sinF piQ rng 20).ps = some (ground_truth sinF piQ ((10 : ℕ) : ℤ) cfgC5 + cfgC5.noise_std * rng cfgC5.seed 5) ∧
      (iterState (adaptivePolicy 2 1000 10) cfgC5 E sinF piQ rng 20).lastMeasurement = some (ground_truth sinF piQ ((18 : ℕ) : ℤ) cfgC5 + cfgC5.noise_std * rng cfgC5.seed 9) ∧
      (iterState (adaptivePolicy 2 1000 10) cfgC5 E sinF piQ rng 20).lastTxS = some ((12 : ℕ) : ℤ) ∧
      (iterState (adaptivePolicy 2 1000 10) cfgC5 E sinF piQ rng 20).samplesTaken = 10 ∧
      (iterState (adaptivePolicy 2 1000 10) cfgC5 E sinF piQ rng 20).packetsSent = 2 ∧
      (iterState (adaptivePolicy 2 1000 10) cfgC5 E sinF piQ rng 20).sent = [false, false, true, false, false, false, false, false, false, false, false, false, true, false, false, false, false, false, false, false] := by
    have he : (iterState (adaptivePolicy 2 1000 10) cfgC5 E sinF piQ rng 20) =
        tick (adaptivePolicy 2 1000 10) cfgC5 E sinF piQ rng (iterState (adaptivePolicy 2 1000 10) cfgC5 E sinF piQ rng 19) 19 :=
      iterState_succ (adaptivePolicy 2 1000 10) cfgC5 E sinF piQ rng 19
    obtain ⟨hp0, hl0, hx0, hk0, hq0, hn0⟩ := st19
    obtain ⟨hp, hl, hx, hk, hq, hn⟩ := c5_tick_skip E sinF piQ rng (iterState (adaptivePolicy 2 1000 10) cfgC5 E sinF piQ rng 19) 19 (by decide)
    rw [he]
    refine ⟨?_, ?_, ?_, ?_, ?_, ?_⟩ <;>
      simp [hp, hl, hx, hk, hq, hn, hp0, hl0, hx0, hk0, hq0, hn0]
  have st21 : (iterState (adaptivePolicy 2 1000 10) cfgC5 E sinF piQ rng 21).ps = some (ground_truth sinF piQ ((10 : ℕ) : ℤ) cfgC5 + cfgC5.noise_std * rng cfgC5.seed 5) ∧
      (iterState (adaptivePolicy 2 1000 10) cfgC5 E sinF piQ rng 21).lastMeasurement = some (ground_truth sinF piQ ((20 : ℕ) : ℤ) cfgC5 + cfgC5.noise_std * rng cfgC5.seed 10) ∧
      (iterState (adaptivePolicy 2 1000 10) cfgC5 E sinF piQ rng 21).lastTxS = some ((12 : ℕ) : ℤ) ∧
      (iterState (adaptivePolicy 2 1000 10) cfgC5 E sinF piQ rng 21).samplesTaken = 11 ∧
      (iterState (adaptivePolicy 2 1000 10) cfgC5 E sinF piQ rng 21).packetsSent = 2 ∧
      (iterState (adaptivePolicy 2 1000 10) cfgC5 E sinF piQ rng 21).sent = [false, false, true, false, false, false, false, false, false, false, false, false, true, false, false, false, false, false, false, false, false] := by
    have he : (iterState (adaptivePolicy 2 1000 10) cfgC5 E sinF piQ rng 21) =
        tick (adaptivePolicy 2 1000 10) cfgC5 E sinF piQ rng (iterState (adaptivePolicy 2 1000 10) cfgC5 E sinF piQ rng 20) 20 :=
      iterState_succ (adaptivePolicy 2 1000 10) cfgC5 E sinF piQ rng 20
    obtain ⟨hp0, hl0, hx0, hk0, hq0, hn0⟩ := st20
    have hstep : tickOut (adaptivePolicy 2 1000 10) cfgC5 (iterState (adaptivePolicy 2 1000 10) cfgC5 E sinF piQ rng 20) 20 =
        (⟨true, true, false⟩, some (ground_truth sinF piQ ((10 : ℕ) : ℤ) cfgC5 + cfgC5.noise_std * rng cfgC5.seed 5)) := by
      unfold tickOut
      rw [hp0, hl0, hx0, tickNow_dtOne cfgC5 rfl 20]
      exact c5_step_hold (ground_truth sinF piQ ((10 : ℕ) : ℤ) cfgC5 + cfgC5.noise_std * rng cfgC5.seed 5) (ground_truth sinF piQ ((18 : ℕ) : ℤ) cfgC5 + cfgC5.noise_std * rng cfgC5.seed 9) ((20 : ℕ) : ℤ) ((12 : ℕ) : ℤ) (by decide)
        (c5_meas_bound sinF piQ rng hsin hrng ((18 : ℕ) : ℤ) 9)
        (c5_meas_bound sinF piQ rng hsin hrng ((10 : ℕ) : ℤ) 5) (by decide)
    obtain ⟨hp, hl, hx, hk, hq, hn⟩ := c5_tick_sample E sinF piQ rng (iterState (adaptivePolicy 2 1000 10) cfgC5 E sinF piQ rng 20) 20 false (some (ground_truth sinF piQ ((10 : ℕ) : ℤ) cfgC5 + cfgC5.noise_std * rng cfgC5.seed 5)) hstep
    rw [he]
    refine ⟨?_, ?_, ?_, ?_, ?_, ?_⟩ <;>
      simp [hp, hl, hx, hk, hq, hn, hp0, hl0, hx0, hk0, hq0, hn0]
  have st22 : (iterState (adaptivePolicy 2 1000 10) cfgC5 E sinF piQ rng 22).ps = some (ground_truth sinF piQ ((10 : ℕ) : ℤ) cfgC5 + cfgC5.noise_std * rng cfgC5.seed 5) ∧
      (iterState (adaptivePolicy 2 1000 10) cfgC5 E sinF piQ rng 22).lastMeasurement = some (ground_truth sinF piQ ((20 : ℕ) : ℤ) cfgC5 + cfgC5.noise_std * rng cfgC5.seed 10) ∧
      (iterState (adaptivePolicy 2 1000 10) cfgC5 E sinF piQ rng 22).lastTxS = some ((12 : ℕ) : ℤ) ∧
      (iterState (adaptivePolicy 2 1000 10) cfgC5 E sinF piQ rng 22).samplesTaken = 11 ∧
      (iterState (adaptivePolicy 2 1000 10) cfgC5 E sinF piQ rng 22).packetsSent = 2 ∧
      (iterState (adaptivePolicy 2 1000 10) cfgC5 E sinF piQ rng 22).sent = [false, false, true, false, false, false, false, false, false, false, false, false, true, false, false, false, false, false, false, false, false, false] := by
    have he : (iterState (adaptivePolicy 2 1000 10) cfgC5 E sinF piQ rng 22) =
        tick (adaptivePolicy 2 1000 10) cfgC5 E sinF piQ rng (iterState (adaptivePolicy 2 1000 10) cfgC5 E sinF piQ rng 21) 21 :=
      iterState_succ (adaptivePolicy 2 1000 10) cfgC5 E sinF piQ rng 21
    obtain ⟨hp0, hl0, hx0, hk0, hq0, hn0⟩ := st21
    obtain ⟨hp, hl, hx, hk, hq, hn⟩ := c5_tick_skip E sinF piQ rng (iterState (adaptivePolicy 2 1000 10) cfgC5 E sinF piQ rng 21) 21 (by decide)
    rw [he]
    refine ⟨?_, ?_, ?_, ?_, ?_, ?_⟩ <;>
      simp [hp, hl, hx, hk, hq, hn, hp0, hl0, hx0, hk0, hq0, hn0]
  have st23 : (iterState (adaptivePolicy 2 1000 10) cfgC5 E sinF piQ rng 23).ps = some (ground_truth sinF piQ ((20 : ℕ) : ℤ) cfgC5 + cfgC5.noise_std * rng cfgC5.seed 10) ∧
      (iterState (adaptivePolicy 2 1000 10) cfgC5 E sinF piQ rng 23).lastMeasurement = some (ground_truth sinF piQ ((22 : ℕ) : ℤ) cfgC5 + cfgC5.noise_std * rng cfgC5.seed 11) ∧
      (iterState (adaptivePolicy 2 1000 10) cfgC5 E sinF piQ rng 23).lastTxS = some ((22 : ℕ) : ℤ) ∧
      (iterState (adaptivePolicy 2 1000 10) cfgC5 E sinF piQ rng 23).samplesTaken = 12 ∧
      (iterState (adaptivePolicy 2 1000 10) cfgC5 E sinF piQ rng 23).packetsSent = 3 ∧
      (iterState (adaptivePolicy 2 1000 10) cfgC5 E sinF piQ rng 23).sent = [false, false, true, false, false, false, false, false, false, false, false, false, true, false, false, false, false, false, false, false, false, false, true] := by
    have he : (iterState (adaptivePolicy 2 1000 10) cfgC5 E sinF piQ rng 23) =
        tick (adaptivePolicy 2 1000 10) cfgC5 E sinF piQ rng (iterState (adaptivePolicy 2 1000 10) cfgC5 E sinF piQ rng 22) 22 :=
      iterState_succ (adaptivePolicy 2 1000 10) cfgC5 E sinF piQ rng 22
    obtain ⟨hp0, hl0, hx0, hk0, hq0, hn0⟩ := st22
    have hstep : tickOut (adaptivePolicy 2 1000 10) cfgC5 (iterState (adaptivePolicy 2 1000 10) cfgC5 E sinF piQ rng 22) 22 =
        (⟨true, true, true⟩, some (ground_truth sinF piQ ((20 : ℕ) : ℤ) cfgC5 + cfgC5.noise_std * rng cfgC5.seed 10)) := by
      unfold tickOut
      rw [hp0, hl0, hx0, tickNow_dtOne cfgC5 rfl 22]
      exact c5_step_keepalive (ground_truth sinF piQ ((10 : ℕ) : ℤ) cfgC5 + cfgC5.noise_std * rng cfgC5.seed 5) (ground_truth sinF piQ ((20 : ℕ) : ℤ) cfgC5 + cfgC5.noise_std * rng cfgC5.seed 10) ((22 : ℕ) : ℤ) ((12 : ℕ) : ℤ) (by decide)
        (c5_meas_bound sinF piQ rng hsin hrng ((20 : ℕ) : ℤ) 10)
        (c5_meas_bound sinF piQ rng hsin hrng ((10 : ℕ) : ℤ) 5) (by decide)
    obtain ⟨hp, hl, hx, hk, hq, hn⟩ := c5_tick_sample E sinF piQ rng (iterState (adaptivePolicy 2 1000 10) cfgC5 E sinF piQ rng 22) 22 true (some (ground_truth sinF piQ ((20 : ℕ) : ℤ) cfgC5 + cfgC5.noise_std * rng cfgC5.seed 10)) hstep
    rw [he]
    refine ⟨?_, ?_, ?_, ?_, ?_, ?_⟩ <;>
      simp [hp, hl, hx, hk, hq, hn, hp0, hl0, hx0, hk0, hq0, hn0]
  have st24 : (iterState (adaptivePolicy 2 1000 10) cfgC5 E sinF piQ rng 24).ps = some (ground_truth sinF piQ ((20 : ℕ) : ℤ) cfgC5 + cfgC5.noise_std * rng cfgC5.seed 10) ∧
      (iterState (adaptivePolicy 2 1000 10) cfgC5 E sinF piQ rng 24).lastMeasurement = some (ground_truth sinF piQ ((22 : ℕ) : ℤ) cfgC5 + cfgC5.noise_std * rng cfgC5.seed 11) ∧
      (iterState (adaptivePolicy 2 1000 10) cfgC5 E sinF piQ rng 24).lastTxS = some ((22 : ℕ) : ℤ) ∧
      (iterState (adaptivePolicy 2 1000 10) cfgC5 E sinF piQ rng 24).samplesTaken = 12 ∧
      (iterState (adaptivePolicy 2 1000 10) cfgC5 E sinF piQ rng 24).packetsSent = 3 ∧
      (iterState (adaptivePolicy 2 1000 10) cfgC5 E sinF piQ rng 24).sent = [false, false, true, false, false, false, false, false, false, false, false, false, true, false, false, false, false, false, false, false, false, false, true, false] := by
    have he : (iterState (adaptivePolicy 2 1000 10) cfgC5 E sinF piQ rng 24) =
        tick (adaptivePolicy 2 1000 10) cfgC5 E sinF piQ rng (iterState (adaptivePolicy 2 1000 10) cfgC5 E sinF piQ rng 23) 23 :=
      iterState_succ (adaptivePolicy 2 1000 10) cfgC5 E sinF piQ rng 23
    obtain ⟨hp0, hl0, hx0, hk0, hq0, hn0⟩ := st23
    obtain ⟨hp, hl, hx, hk, hq, hn⟩ := c5_tick_skip E sinF piQ rng (iterState (adaptivePolicy 2 1000 10) cfgC5 E sinF piQ rng 23) 23 (by decide)
    rw [he]
    refine ⟨?_, ?_, ?_, ?_, ?_, ?_⟩ <;>
      simp [hp, hl, hx, hk, hq, hn, hp0, hl0, hx0, hk0, hq0, hn0]
  have st25 : (iterState (adaptivePolicy 2 1000 10) cfgC5 E sinF piQ rng 25).ps = some (ground_truth sinF piQ ((20 : ℕ) : ℤ) cfgC5 + cfgC5.noise_std * rng cfgC5.seed 10) ∧
      (iterState (adaptivePolicy 2 1000 10) cfgC5 E sinF piQ rng 25).lastMeasurement = some (ground_truth sinF piQ ((24 : ℕ) : ℤ) cfgC5 + cfgC5.noise_std * rng cfgC5.seed 12) ∧
      (iterState (adaptivePolicy 2 1000 10) cfgC5 E sinF piQ rng 25).lastTxS = some ((22 : ℕ) : ℤ) ∧
      (iterState (adaptivePolicy 2 1000 10) cfgC5 E sinF piQ rng 25).samplesTaken = 13 ∧
      (iterState (adaptivePolicy 2 1000 10) cfgC5 E sinF piQ rng 25).packetsSent = 3 ∧
      (iterState (adaptivePolicy 2 1000 10) cfgC5 E sinF piQ rng 25).sent = [false, false, true, false, false, false, false, false, false, false, false, false, true, false, false, false, false, false, false, false, false, false, true, false, false] := by
    have he : (iterState (adaptivePolicy 2 1000 10) cfgC5 E sinF piQ rng 25) =
        tick (adaptivePolicy 2 1000 10) cfgC5 E sinF piQ rng (iterState (adaptivePolicy 2 1000 10) cfgC5 E sinF piQ rng 24) 24 :=
      iterState_succ (adaptivePolicy 2 1000 10) cfgC5 E sinF piQ rng 24
    obtain ⟨hp0, hl0, hx0, hk0, hq0, hn0⟩ := st24
    have hstep : tickOut (adaptivePolicy 2 1000 10) cfgC5 (iterState (adaptivePolicy 2 1000 10) cfgC5 E sinF piQ rng 24) 24 =
        (⟨true, true, false⟩, some (ground_truth sinF piQ ((20 : ℕ) : ℤ) cfgC5 + cfgC5.noise_std * rng cfgC5.seed 10)) := by
      unfold tickOut
      rw [hp0, hl0, hx0, tickNow_dtOne cfgC5 rfl 24]
      exact c5_step_hold (ground_truth sinF piQ ((20 : ℕ) : ℤ) cfgC5 + cfgC5.noise_std * rng cfgC5.seed 10) (ground_truth sinF piQ ((22 : ℕ) : ℤ) cfgC5 + cfgC5.noise_std * rng cfgC5.seed 11) ((24 : ℕ) : ℤ) ((22 : ℕ) : ℤ) (by decide)
        (c5_meas_bound sinF piQ rng hsin hrng ((22 : ℕ) : ℤ) 11)
        (c5_meas_bound sinF piQ rng hsin hrng ((20 : ℕ) : ℤ) 10) (by decide)
    obtain ⟨hp, hl, hx, hk, hq, hn⟩ := c5_tick_sample E sinF piQ rng (iterState (adaptivePolicy 2 1000 10) cfgC5 E sinF piQ rng 24) 24 false (some (ground_truth sinF piQ ((20 : ℕ) : ℤ) cfgC5 + cfgC5.noise_std * rng cfgC5.seed 10)) hstep
    rw [he]
    refine ⟨?_, ?_, ?_, ?_, ?_, ?_⟩ <;>
      simp [hp, hl, hx, hk, hq, hn, hp0, hl0, hx0, hk0, hq0, hn0]
  have st26 : (iterState (adaptivePolicy 2 1000 10) cfgC5 E sinF piQ rng 26).ps = some (ground_truth sinF piQ ((20 : ℕ) : ℤ) cfgC5 + cfgC5.noise_std * rng cfgC5.seed 10) ∧
      (iterState (adaptivePolicy 2 1000 10) cfgC5 E sinF piQ rng 26).lastMeasurement = some (ground_truth sinF piQ ((24 : ℕ) : ℤ) cfgC5 + cfgC5.noise_std * rng cfgC5.seed 12) ∧
      (iterState (adaptivePolicy 2 1000 10) cfgC5 E sinF piQ rng 26).lastTxS = some ((22 : ℕ) : ℤ) ∧
      (iterState (adaptivePolicy 2 1000 10) cfgC5 E sinF piQ rng 26).samplesTaken = 13 ∧
      (iterState (adaptivePolicy 2 1000 10) cfgC5 E sinF piQ rng 26).packetsSent = 3 ∧
      (iterState (adaptivePolicy 2 1000 10) cfgC5 E sinF piQ rng 26).sent = [false, false, true, false, false, false, false, false, false, false, false, false, true, false, false, false, false, false, false, false, false, false, true, false, false, false] := by
    have he : (iterState (adaptivePolicy 2 1000 10) cfgC5 E sinF piQ rng 26) =
        tick (adaptivePolicy 2 1000 10) cfgC5 E sinF piQ rng (iterState (adaptivePolicy 2 1000 10) cfgC5 E sinF piQ rng 25) 25 :=
      iterState_succ (adaptivePolicy 2 1000 10) cfgC5 E sinF piQ rng 25
    obtain ⟨hp0, hl0, hx0, hk0, hq0, hn0⟩ := st25
    obtain ⟨hp, hl, hx, hk, hq, hn⟩ := c5_tick_skip E sinF piQ rng (iterState (adaptivePolicy 2 1000 10) cfgC5 E sinF piQ rng 25) 25 (by decide)
    rw [he]
    refine ⟨?_, ?_, ?_, ?_, ?_, ?_⟩ <;>
      simp [hp, hl, hx, hk, hq, hn, hp0, hl0, hx0, hk0, hq0, hn0]
  have st27 : (iterState (adaptivePolicy 2 1000 10) cfgC5 E sinF piQ rng 27).ps = some (ground_truth sinF piQ ((20 : ℕ) : ℤ) cfgC5 + cfgC5.noise_std * rng cfgC5.seed 10) ∧
      (iterState (adaptivePolicy 2 1000 10) cfgC5 E sinF piQ rng 27).lastMeasurement = some (ground_truth sinF piQ ((26 : ℕ) : ℤ) cfgC5 + cfgC5.noise_std * rng cfgC5.seed 13) ∧
      (iterState (adaptivePolicy 2 1000 10) cfgC5 E sinF piQ rng 27).lastTxS = some ((22 : ℕ) : ℤ) ∧
      (iterState (adaptivePolicy 2 1000 10) cfgC5 E sinF piQ rng 27).samplesTaken = 14 ∧
      (iterState (adaptivePolicy 2 1000 10) cfgC5 E sinF piQ rng 27).packetsSent = 3 ∧
      (iterState (adaptivePolicy 2 1000 10) cfgC5 E sinF piQ rng 27).sent = [false, false, true, false, false, false, false, false, false, false, false, false, true, false, false, false, false, false, false, false, false, false, true, false, false, false, false] := by
    have he : (iterState (adaptivePolicy 2 1000 10) cfgC5 E sinF piQ rng 27) =
        tick (adaptivePolicy 2 1000 10) cfgC5 E sinF piQ rng (iterState (adaptivePolicy 2 1000 10) cfgC5 E sinF piQ rng 26) 26 :=
      iterState_succ (adaptivePolicy 2 1000 10) cfgC5 E sinF piQ rng 26
    obtain ⟨hp0, hl0, hx0, hk0, hq0, hn0⟩ := st26
    have hstep : tickOut (adaptivePolicy 2 1000 10) cfgC5 (iterState (adaptivePolicy 2 1000 10) cfgC5 E sinF piQ rng 26) 26 =
        (⟨true, true, false⟩, some (ground_truth sinF piQ ((20 : ℕ) : ℤ) cfgC5 + cfgC5.noise_std * rng cfgC5.seed 10)) := by
      unfold tickOut
      rw [hp0, hl0, hx0, tickNow_dtOne cfgC5 rfl 26]
      exact c5_step_hold (ground_truth sinF piQ ((20 : ℕ) : ℤ) cfgC5 + cfgC5.noise_std * rng cfgC5.seed 10) (ground_truth sinF piQ ((24 : ℕ) : ℤ) cfgC5 + cfgC5.noise_std * rng cfgC5.seed 12) ((26 : ℕ) : ℤ) ((22 : ℕ) : ℤ) (by decide)
        (c5_meas_bound sinF piQ rng hsin hrng ((24 : ℕ) : ℤ) 12)
        (c5_meas_bound sinF piQ rng hsin hrng ((20 : ℕ) : ℤ) 10) (by decide)
    obtain ⟨hp, hl, hx, hk, hq, hn⟩ := c5_tick_sample E sinF piQ rng (iterState (adaptivePolicy 2 1000 10) cfgC5 E sinF piQ rng 26) 26 false (some (ground_truth sinF piQ ((20 : ℕ) : ℤ) cfgC5 + cfgC5.noise_std * rng cfgC5.seed 10)) hstep
    rw [he]
    refine ⟨?_, ?_, ?_, ?_, ?_, ?_⟩ <;>
      simp [hp, hl, hx, hk, hq, hn, hp0, hl0, hx0, hk0, hq0, hn0]
  have st28 : (iterState (adaptivePolicy 2 1000 10) cfgC5 E sinF piQ rng 28).ps = some (ground_truth sinF piQ ((20 : ℕ) : ℤ) cfgC5 + cfgC5.noise_std * rng cfgC5.seed 10) ∧
      (iterState (adaptivePolicy 2 1000 10) cfgC5 E sinF piQ rng 28).lastMeasurement = some (ground_truth sinF piQ ((26 : ℕ) : ℤ) cfgC5 + cfgC5.noise_std * rng cfgC5.seed 13) ∧
      (iterState (adaptivePolicy 2 1000 10) cfgC5 E sinF piQ rng 28).lastTxS = some ((22 : ℕ) : ℤ) ∧
      (iterState (adaptivePolicy 2 1000 10) cfgC5 E sinF piQ rng 28).samplesTaken = 14 ∧
      (iterState (adaptivePolicy 2 1000 10) cfgC5 E sinF piQ rng 28).packetsSent = 3 ∧
      (iterState (adaptivePolicy 2 1000 10) cfgC5 E sinF piQ rng 28).sent = [false, false, true, false, false, false, false, false, false, false, false, false, true, false, false, false, false, false, false, false, false, false, true, false, false, false, false, false] := by
    have he : (iterState (adaptivePolicy 2 1000 10) cfgC5 E sinF piQ rng 28) =
        tick (adaptivePolicy 2 1000 10) cfgC5 E sinF piQ rng (iterState (adaptivePolicy 2 1000 10) cfgC5 E sinF piQ rng 27) 27 :=
      iterState_succ (adaptivePolicy 2 1000 10) cfgC5 E sinF piQ rng 27
    obtain ⟨hp0, hl0, hx0, hk0, hq0, hn0⟩ := st27
    obtain ⟨hp, hl, hx, hk, hq, hn⟩ := c5_tick_skip E sinF piQ rng (iterState (adaptivePolicy 2 1000 10) cfgC5 E sinF piQ rng 27) 27 (by decide)
    rw [he]
    refine ⟨?_, ?_, ?_, ?_, ?_, ?_⟩ <;>
      simp [hp, hl, hx, hk, hq, hn, hp0, hl0, hx0, hk0, hq0, hn0]
  have st29 : (iterState (adaptivePolicy 2 1000 10) cfgC5 E sinF piQ rng 29).ps = some (ground_truth sinF piQ ((20 : ℕ) : ℤ) cfgC5 + cfgC5.noise_std * rng cfgC5.seed 10) ∧
      (iterState (adaptivePolicy 2 1000 10) cfgC5 E sinF piQ rng 29).lastMeasurement = some (ground_truth sinF piQ ((28 : ℕ) : ℤ) cfgC5 + cfgC5.noise_std * rng cfgC5.seed 14) ∧
      (iterState (adaptivePolicy 2 1000 10) cfgC5 E sinF piQ rng 29).lastTxS = some ((22 : ℕ) : ℤ) ∧
      (iterState (adaptivePolicy 2 1000 10) cfgC5 E sinF piQ rng 29).samplesTaken = 15 ∧
      (iterState (adaptivePolicy 2 1000 10) cfgC5 E sinF piQ rng 29).packetsSent = 3 ∧
      (iterState (adaptivePolicy 2 1000 10) cfgC5 E sinF piQ rng 29).sent = [false, false, true, false, false, false, false, false, false, false, false, false, true, false, false, false, false, false, false, false, false, false, true, false, false, false, false, false, false] := by
    have he : (iterState (adaptivePolicy 2 1000 10) cfgC5 E sinF piQ rng 29) =
        tick (adaptivePolicy 2 1000 10) cfgC5 E sinF piQ rng (iterState (adaptivePolicy 2 1000 10) cfgC5 E sinF piQ rng 28) 28 :=
      iterState_succ (adaptivePolicy 2 1000 10) cfgC5 E sinF piQ rng 28
    obtain ⟨hp0, hl0, hx0, hk0, hq0, hn0⟩ := st28
    have hstep : tickOut (adaptivePolicy 2 1000 10) cfgC5 (iterState (adaptivePolicy 2 1000 10) cfgC5 E sinF piQ rng 28) 28 =
        (⟨true, true, false⟩, some (ground_truth sinF piQ ((20 : ℕ) : ℤ) cfgC5 + cfgC5.noise_std * rng cfgC5.seed 10)) := by
      unfold tickOut
      rw [hp0, hl0, hx0, tickNow_dtOne cfgC5 rfl 28]
      exact c5_step_hold (ground_truth sinF piQ ((20 : ℕ) : ℤ) cfgC5 + cfgC5.noise_std * rng cfgC5.seed 10) (ground_truth sinF piQ ((26 : ℕ) : ℤ) cfgC5 + cfgC5.noise_std * rng cfgC5.seed 13) ((28 : ℕ) : ℤ) ((22 : ℕ) : ℤ) (by decide)
        (c5_meas_bound sinF piQ rng hsin hrng ((26 : ℕ) : ℤ) 13)
        (c5_meas_bound sinF piQ rng hsin hrng ((20 : ℕ) : ℤ) 10) (by decide)
    obtain ⟨hp, hl, hx, hk, hq, hn⟩ := c5_tick_sample E sinF piQ rng (iterState (adaptivePolicy 2 1000 10) cfgC5 E sinF piQ rng 28) 28 false (some (ground_truth sinF piQ ((20 : ℕ) : ℤ) cfgC5 + cfgC5.noise_std * rng cfgC5.seed 10)) hstep
    rw [he]
    refine ⟨?_, ?_, ?_, ?_, ?_, ?_⟩ <;>
      simp [hp, hl, hx, hk, hq, hn, hp0, hl0, hx0, hk0, hq0, hn0]
  have st30 : (iterState (adaptivePolicy 2 1000 10) cfgC5 E sinF piQ rng 30).ps = some (ground_truth sinF piQ ((20 : ℕ) : ℤ) cfgC5 + cfgC5.noise_std * rng cfgC5.seed 10) ∧
      (iterState (adaptivePolicy 2 1000 10) cfgC5 E sinF piQ rng 30).lastMeasurement = some (ground_truth sinF piQ ((28 : ℕ) : ℤ) cfgC5 + cfgC5.noise_std * rng cfgC5.seed 14) ∧
      (iterState (adaptivePolicy 2 1000 10) cfgC5 E sinF piQ rng 30).lastTxS = some ((22 : ℕ) : ℤ) ∧
      (iterState (adaptivePolicy 2 1000 10) cfgC5 E sinF piQ rng 30).samplesTaken = 15 ∧
      (iterState (adaptivePolicy 2 1000 10) cfgC5 E sinF piQ rng 30).packetsSent = 3 ∧
      (iterState (adaptivePolicy 2 1000 10) cfgC5 E sinF piQ rng 30).sent = [false, false, true, false, false, false, false, false, false, false, false, false, true, false, false, false, false, false, false, false, false, false, true, false, false, false, false, false, false, false] := by
    have he : (iterState (adaptivePolicy 2 1000 10) cfgC5 E sinF piQ rng 30) =
        tick (adaptivePolicy 2 1000 10) cfgC5 E sinF piQ rng (iterState (adaptivePolicy 2 1000 10) cfgC5 E sinF piQ rng 29) 29 :=
      iterState_succ (adaptivePolicy 2 1000 10) cfgC5 E sinF piQ rng 29
    obtain ⟨hp0, hl0, hx0, hk0, hq0, hn0⟩ := st29
    obtain ⟨hp, hl, hx, hk, hq, hn⟩ := c5_tick_skip E sinF piQ rng (iterState (adaptivePolicy 2 1000 10) cfgC5 E sinF piQ rng 29) 29 (by decide)
    rw [he]
    refine ⟨?_, ?_, ?_, ?_, ?_, ?_⟩ <;>
      simp [hp, hl, hx, hk, hq, hn, hp0, hl0, hx0, hk0, hq0, hn0]
  have st31 : (iterState (adaptivePolicy 2 1000 10) cfgC5 E sinF piQ rng 31).ps = some (ground_truth sinF piQ ((20 : ℕ) : ℤ) cfgC5 + cfgC5.noise_std * rng cfgC5.seed 10) ∧
      (iterState (adaptivePolicy 2 1000 10) cfgC5 E sinF piQ rng 31).lastMeasurement = some (ground_truth sinF piQ ((30 : ℕ) : ℤ) cfgC5 + cfgC5.noise_std * rng cfgC5.seed 15) ∧
      (iterState (adaptivePolicy 2 1000 10) cfgC5 E sinF piQ rng 31).lastTxS = some ((22 : ℕ) : ℤ) ∧
      (iterState (adaptivePolicy 2 1000 10) cfgC5 E sinF piQ rng 31).samplesTaken = 16 ∧
      (iterState (adaptivePolicy 2 1000 10) cfgC5 E sinF piQ rng 31).packetsSent = 3 ∧
      (iterState (adaptivePolicy 2 1000 10) cfgC5 E sinF piQ rng 31).sent = [false, false, true, false, false, false, false, false, false, false, false, false, true, false, false, false, false, false, false, false, false, false, true, false, false, false, false, false, false, false, false] := by
    have he : (iterState (adaptivePolicy 2 1000 10) cfgC5 E sinF piQ rng 31) =
        tick (adaptivePolicy 2 1000 10) cfgC5 E sinF piQ rng (iterState (adaptivePolicy 2 1000 10) cfgC5 E sinF piQ rng 30) 30 :=
      iterState_succ (adaptivePolicy 2 1000 10) cfgC5 E sinF piQ rng 30
    obtain ⟨hp0, hl0, hx0, hk0, hq0, hn0⟩ := st30
    have hstep : tickOut (adaptivePolicy 2 1000 10) cfgC5 (iterState (adaptivePolicy 2 1000 10) cfgC5 E sinF piQ rng 30) 30 =
        (⟨true, true, false⟩, some (ground_truth sinF piQ ((20 : ℕ) : ℤ) cfgC5 + cfgC5.noise_std * rng cfgC5.seed 10)) := by
      unfold tickOut
      rw [hp0, hl0, hx0, tickNow_dtOne cfgC5 rfl 30]
      exact c5_step_hold (ground_truth sinF piQ ((20 : ℕ) : ℤ) cfgC5 + cfgC5.noise_std * rng cfgC5.seed 10) (ground_truth sinF piQ ((28 : ℕ) : ℤ) cfgC5 + cfgC5.noise_std * rng cfgC5.seed 14) ((30 : ℕ) : ℤ) ((22 : ℕ) : ℤ) (by decide)
        (c5_meas_bound sinF piQ rng hsin hrng ((28 : ℕ) : ℤ) 14)
        (c5_meas_bound sinF piQ rng hsin hrng ((20 : ℕ) : ℤ) 10) (by decide)
    obtain ⟨hp, hl, hx, hk, hq, hn⟩ := c5_tick_sample E sinF piQ rng (iterState (adaptivePolicy 2 1000 10) cfgC5 E sinF piQ rng 30) 30 false (some (ground_truth sinF piQ ((20 : ℕ) : ℤ) cfgC5 + cfgC5.noise_std * rng cfgC5.seed 10)) hstep
    rw [he]
    refine ⟨?_, ?_, ?_, ?_, ?_, ?_⟩ <;>
      simp [hp, hl, hx, hk, hq, hn, hp0, hl0, hx0, hk0, hq0, hn0]

  obtain ⟨p31, l31, x31, k31, q31, n31⟩ := st31
  have hN : (pyTrunc ((cfgC5.duration_s : ℚ) / cfgC5.dt_s) + 1).toNat = 31 := by
    have h30 : pyTrunc ((cfgC5.duration_s : ℚ) / cfgC5.dt_s) = 30 := by
      norm_num [cfgC5, pyTrunc]
    rw [h30]
    decide
  rw [simulate_map_stats (adaptivePolicy 2 1000 10) cfgC5 E sinF piQ rng
    (by norm_num [cfgC5]) (by simp [hE]), hN, k31, q31, n31]


/-- Witness for C5's amended statement at a concrete instantiation (default
energy model, zero sine model, zero noise stream). -/
theorem C5_witness :
    (simulate (adaptivePolicy 2 1000 10) cfgC5 eDefault sinZero 3 rngZero).map
      (fun r => (r.samples_taken, r.packets_sent, r.sent)) =
    some (16, 3,
      [false, false, true, false, false, false, false, false, false, false,
       false, false, true, false, false, false, false, false, false, false,
       false, false, true, false, false, false, false, false, false, false,
       false]) :=
  C5_theorem eDefault sinZero 3 rngZero (by norm_num [eDefault])
    (by intro q; simp [sinZero]) (by intro k; simp [rngZero])

end SensorSim
